import Mathlib

/-!
# AdiSat: orbital simulation engine of `src/App.js`

A shallow embedding of the tracking logic of the `App` component: the simulation clock,
the per-object history buffers, the ground-track discontinuity test, the visibility
classification of objects and ground stations, `calculateSatellitePosition`,
`geodeticToSpherical`, `getSatelliteLookAngles`, the event handlers of the controls and the
built-in catalogue `TLE_DATA`.

Numbers are JavaScript numbers.  They are modelled by `JSNum`: an exact rational, one of
the two infinities, or NaN.  NaN, the infinities, the comparison operators and the remainder
operator follow ECMAScript; the sign of zero is not modelled.  The operators of `JSNum` give
exact results.  Rounding to binary64 is `JSNum.toDouble`; the clock and the longitude test,
where the rounding decides what is stored, are also given with every result rounded
(`animateClock64`, `longitudeJump64`).  The propagation library (`window.satellite`), the
`Math` object and the vector normalisation of the rendering library are loaded from outside
the repository and are parameters of the definitions that call them.  A call of a member
that the loaded library does not have throws; `forEachSatelliteCompletion` is the loop of a
tick with that exception, `forEachSatellite` the loop of a tick in which no call throws.
-/

namespace AdiSat

/-! ## JavaScript numbers -/

/-- JavaScript number: an exact finite value, `Infinity`, `-Infinity` or `NaN`. -/
inductive JSNum where
  | fin (q : ℚ)
  | posInf
  | negInf
  | nan
deriving DecidableEq

namespace JSNum

instance : Inhabited JSNum := ⟨fin 0⟩

instance : OfNat JSNum n := ⟨fin n⟩

/-- Global `isNaN` on a number. -/
def isNaN : JSNum → Bool
  | nan => true
  | _ => false

/-- Predicate: the number is neither NaN nor an infinity. -/
def isFinite : JSNum → Bool
  | fin _ => true
  | _ => false

/-- Infinity of the given sign. -/
def signedInf (positive : Bool) : JSNum :=
  if positive then posInf else negInf

/-- Unary minus. -/
def neg : JSNum → JSNum
  | fin q => fin (-q)
  | posInf => negInf
  | negInf => posInf
  | nan => nan

/-- Operator `+`. -/
def add : JSNum → JSNum → JSNum
  | fin a, fin b => fin (a + b)
  | fin _, posInf => posInf
  | fin _, negInf => negInf
  | posInf, fin _ => posInf
  | posInf, posInf => posInf
  | posInf, negInf => nan
  | negInf, fin _ => negInf
  | negInf, posInf => nan
  | negInf, negInf => negInf
  | nan, _ => nan
  | _, nan => nan

/-- Operator `-` (binary). -/
def sub (a b : JSNum) : JSNum := add a (neg b)

/-- Operator `*`. -/
def mul : JSNum → JSNum → JSNum
  | fin a, fin b => fin (a * b)
  | fin a, posInf => if a = 0 then nan else signedInf (decide (0 < a))
  | fin a, negInf => if a = 0 then nan else signedInf (decide (a < 0))
  | posInf, fin b => if b = 0 then nan else signedInf (decide (0 < b))
  | negInf, fin b => if b = 0 then nan else signedInf (decide (b < 0))
  | posInf, posInf => posInf
  | posInf, negInf => negInf
  | negInf, posInf => negInf
  | negInf, negInf => posInf
  | nan, _ => nan
  | _, nan => nan

/-- Operator `/`.  A zero divisor counts as positive zero. -/
def div : JSNum → JSNum → JSNum
  | fin a, fin b =>
    if b = 0 then (if a = 0 then nan else signedInf (decide (0 < a))) else fin (a / b)
  | fin _, posInf => fin 0
  | fin _, negInf => fin 0
  | posInf, fin b => signedInf (decide (0 ≤ b))
  | negInf, fin b => signedInf (decide (b < 0))
  | posInf, posInf => nan
  | posInf, negInf => nan
  | negInf, posInf => nan
  | negInf, negInf => nan
  | nan, _ => nan
  | _, nan => nan

/-- Truncation of a rational toward zero. -/
def truncQ (q : ℚ) : ℤ := if 0 ≤ q then ⌊q⌋ else ⌈q⌉

/-- Operator `%`: the remainder takes the sign of the dividend (truncated division). -/
def rem : JSNum → JSNum → JSNum
  | fin a, fin b => if b = 0 then nan else fin (a - b * (truncQ (a / b) : ℚ))
  | fin a, posInf => fin a
  | fin a, negInf => fin a
  | posInf, _ => nan
  | negInf, _ => nan
  | nan, _ => nan
  | fin _, nan => nan

/-- Operator `<`, false whenever an operand is NaN. -/
def lt : JSNum → JSNum → Bool
  | fin a, fin b => decide (a < b)
  | fin _, posInf => true
  | negInf, fin _ => true
  | negInf, posInf => true
  | _, _ => false

/-- Operator `>`. -/
def gt (a b : JSNum) : Bool := lt b a

/-- Operator `<=`, false whenever an operand is NaN. -/
def le : JSNum → JSNum → Bool
  | fin a, fin b => decide (a ≤ b)
  | fin _, posInf => true
  | negInf, fin _ => true
  | negInf, posInf => true
  | posInf, posInf => true
  | negInf, negInf => true
  | _, _ => false

/-- Operator `>=`. -/
def ge (a b : JSNum) : Bool := le b a

/-- The function `Math.abs`. -/
def abs : JSNum → JSNum
  | fin q => fin |q|
  | posInf => posInf
  | negInf => posInf
  | nan => nan

instance : Add JSNum := ⟨add⟩
instance : Sub JSNum := ⟨sub⟩
instance : Mul JSNum := ⟨mul⟩
instance : Div JSNum := ⟨div⟩
instance : Mod JSNum := ⟨rem⟩
instance : Neg JSNum := ⟨neg⟩

end JSNum

/-! ## Rounding to binary64 -/

/-- Nearest whole number, the even one on a tie. -/
def roundHalfEven (x : ℚ) : ℤ :=
  let f := ⌊x⌋
  let r := x - f
  if r < 1 / 2 then f
  else if 1 / 2 < r then f + 1
  else if f % 2 = 0 then f else f + 1

/-- Binary exponent of the binary64 binade of a value: the `e` with `2 ^ e ≤ |q| < 2 ^ (e + 1)`,
and -1022, the exponent of the subnormal numbers, for a smaller value. -/
def binaryExponent (q : ℚ) : ℤ :=
  if q = 0 then -1022 else max (Int.log 2 |q|) (-1022)

/-- Spacing of the binary64 numbers around a value: 52 fraction bits below the exponent. -/
def ulp (q : ℚ) : ℚ := (2 : ℚ) ^ (binaryExponent q - 52)

/-- Rounding of an exact value to binary64: to the nearest representable number, to the one
with an even significand on a tie, and to an infinity when the rounded magnitude reaches
2 ^ 1024. -/
def roundToDouble (q : ℚ) : JSNum :=
  let r := (roundHalfEven (q / ulp q) : ℚ) * ulp q
  if (2 : ℚ) ^ (1024 : ℤ) ≤ |r| then JSNum.signedInf (decide (0 < q)) else JSNum.fin r

/-- The binary64 result of an arithmetic operation whose exact result is given. -/
def JSNum.toDouble : JSNum → JSNum
  | JSNum.fin q => roundToDouble q
  | x => x

/-! ## Dates and the simulation clock -/

/-- A `Date` object: its time value is a whole number of milliseconds since the epoch, or
NaN (`none`, an invalid date). -/
structure JSDate where
  timeValue : Option ℤ
deriving DecidableEq

/-- Method `Date.prototype.getTime`. -/
def JSDate.getTime (d : JSDate) : JSNum :=
  match d.timeValue with
  | some t => JSNum.fin t
  | none => JSNum.nan

/-- Largest magnitude of a time value, in milliseconds (ECMAScript TimeClip). -/
def maxTimeValue : ℚ := 8640000000000000

/-- ECMAScript TimeClip: non-finite or out-of-range values give NaN, other values lose
their fractional part. -/
def timeClip : JSNum → Option ℤ
  | JSNum.fin q => if maxTimeValue < |q| then none else some (JSNum.truncQ q)
  | _ => none

/-- Constructor `new Date(value)` on a number. -/
def newDate (value : JSNum) : JSDate := ⟨timeClip value⟩

/-- The updater passed to `setSimulationTime` in `animate`:
`prevTime => new Date(prevTime.getTime() + (deltaTime * timeMultiplier))`, with the product
and the sum taken exactly; `advanceSimulationTime64` rounds them to binary64. -/
def advanceSimulationTime (deltaTime timeMultiplier : JSNum) (prevTime : JSDate) : JSDate :=
  let newTime := newDate (prevTime.getTime + (deltaTime * timeMultiplier))
  newTime

/-- Clock variables of the animation loop: the closure variable `lastTimestamp` and the
state `simulationTime`. -/
structure ClockState where
  lastTimestamp : JSNum
  simulationTime : JSDate

/-- One invocation of `animate` as far as the clock goes: the frame timestamp together with
the `isPaused` and `timeMultiplier` values seen by the closure. -/
structure ClockTick where
  timestamp : JSNum
  isPaused : Bool
  timeMultiplier : JSNum

/-- The wall-clock delta of a tick: `timestamp - lastTimestamp`. -/
def frameDelta (s : ClockState) (tk : ClockTick) : JSNum :=
  tk.timestamp - s.lastTimestamp

/-- Clock part of `animate`: compute `deltaTime`, remember the timestamp and, unless paused,
advance the simulation time.  The arithmetic is exact; `animateClock64` is the same tick
with every result rounded to binary64. -/
def animateClock (s : ClockState) (tk : ClockTick) : ClockState :=
  let deltaTime := tk.timestamp - s.lastTimestamp
  { lastTimestamp := tk.timestamp
    simulationTime :=
      if !tk.isPaused then advanceSimulationTime deltaTime tk.timeMultiplier s.simulationTime
      else s.simulationTime }

/-- Simulation times after each of a sequence of ticks, in order. -/
def clockTrace (s : ClockState) : List ClockTick → List JSDate
  | [] => []
  | tk :: rest => (animateClock s tk).simulationTime :: clockTrace (animateClock s tk) rest

/-- A tick as the clock invariant assumes it: the wall-clock delta is a finite non-negative
number and the rate multiplier is a whole number from 1 to 3600. -/
def admissibleTick (s : ClockState) (tk : ClockTick) : Bool :=
  (match frameDelta s tk with
    | JSNum.fin d => decide (0 ≤ d)
    | _ => false) &&
  (match tk.timeMultiplier with
    | JSNum.fin m => decide (m.den = 1) && decide (1 ≤ m) && decide (m ≤ 3600)
    | _ => false)

/-- Every tick of a run is admissible in the clock state it is applied to. -/
def admissibleRun (s : ClockState) : List ClockTick → Bool
  | [] => true
  | tk :: rest => admissibleTick s tk && admissibleRun (animateClock s tk) rest

/-- The later time is not before the earlier one.  An invalid date (time value NaN) is
below no time, and no valid time follows an invalid one. -/
def notRegressed (before after : JSDate) : Bool :=
  match before.timeValue, after.timeValue with
  | some x, some y => decide (x ≤ y)
  | _, none => true
  | none, some _ => false

/-- The updater passed to `setSimulationTime`, with each arithmetic result rounded to
binary64 as the language does: the product `deltaTime * timeMultiplier`, then the sum with
`prevTime.getTime()`; `new Date` then drops the fraction of a millisecond. -/
def advanceSimulationTime64 (deltaTime timeMultiplier : JSNum) (prevTime : JSDate) : JSDate :=
  let newTime :=
    newDate (JSNum.toDouble (prevTime.getTime + JSNum.toDouble (deltaTime * timeMultiplier)))
  newTime

/-- The wall-clock delta of a tick in binary64: `timestamp - lastTimestamp`, rounded. -/
def frameDelta64 (s : ClockState) (tk : ClockTick) : JSNum :=
  JSNum.toDouble (tk.timestamp - s.lastTimestamp)

/-- Clock part of `animate` in binary64 arithmetic. -/
def animateClock64 (s : ClockState) (tk : ClockTick) : ClockState :=
  let deltaTime := JSNum.toDouble (tk.timestamp - s.lastTimestamp)
  { lastTimestamp := tk.timestamp
    simulationTime :=
      if !tk.isPaused then advanceSimulationTime64 deltaTime tk.timeMultiplier s.simulationTime
      else s.simulationTime }

/-- Time controls held in component state: `isPaused` and `timeMultiplier`. -/
structure TimeControls where
  isPaused : Bool
  timeMultiplier : JSNum

/-- Initial values `useState(false)` and `useState(60)`. -/
def initialTimeControls : TimeControls := { isPaused := false, timeMultiplier := 60 }

/-- Attribute `min="1"` of the speed slider. -/
def speedSliderMin : ℚ := 1

/-- Attribute `max="3600"` of the speed slider. -/
def speedSliderMax : ℚ := 3600

/-- State setter `setTimeMultiplier`. -/
def setTimeMultiplier (v : JSNum) (c : TimeControls) : TimeControls :=
  { c with timeMultiplier := v }

/-- Speed slider `onChange`: `setTimeMultiplier(Number(e.target.value))`.  The conversion
`Number` is the language builtin and is a parameter. -/
def speedSliderOnChange (Number : String → JSNum) (targetValue : String) (c : TimeControls) :
    TimeControls :=
  setTimeMultiplier (Number targetValue) c

/-- Pause button `onClick`: `setIsPaused(!isPaused)`. -/
def pauseButtonOnClick (c : TimeControls) : TimeControls :=
  { c with isPaused := !c.isPaused }

/-- Value sanitisation of an `<input type="range">` element with the default step of 1
(HTML standard, Range state): a value below the minimum becomes the minimum, a value above
the maximum becomes the maximum, and any other value becomes the nearest whole number of
steps from the minimum, the higher one on a tie.  With a maximum below the minimum the value
is the minimum. -/
def rangeInputSanitize (min max value : ℚ) : ℚ :=
  if max < min then min
  else if value < min then min
  else if max < value then max
  else min + (⌊value - min + 1 / 2⌋ : ℚ)

/-- A change of the speed slider: an attempt to move the element
`<input type="range" min="1" max="3600" onChange=...>` to `requested` leaves it holding the
sanitised value; `e.target.value` is the decimal rendering of that value, which `Number`
reads back, and `onChange` stores it with `setTimeMultiplier`. -/
def speedSliderInput (requested : ℚ) (c : TimeControls) : TimeControls :=
  setTimeMultiplier (JSNum.fin (rangeInputSanitize speedSliderMin speedSliderMax requested)) c

/-- An action on the time controls: a change of the speed slider or a click on the pause
button. -/
inductive TimeControlEvent where
  | slider (requested : ℚ)
  | pauseClick

/-- The handler run for an action on the time controls. -/
def applyTimeControlEvent (c : TimeControls) : TimeControlEvent → TimeControls
  | TimeControlEvent.slider requested => speedSliderInput requested c
  | TimeControlEvent.pauseClick => pauseButtonOnClick c

/-- The time controls after a sequence of actions, starting from the initial state. -/
def timeControlsAfter (events : List TimeControlEvent) : TimeControls :=
  events.foldl applyTimeControlEvent initialTimeControls

/-! ## Vectors, the `Math` object and the propagation library -/

/-- A `THREE.Vector3`. -/
structure Vector3 where
  x : JSNum
  y : JSNum
  z : JSNum
deriving DecidableEq

/-- Method `Vector3.sub`. -/
def Vector3.sub (a b : Vector3) : Vector3 :=
  { x := a.x - b.x, y := a.y - b.y, z := a.z - b.z }

/-- Method `Vector3.dot`. -/
def Vector3.dot (a b : Vector3) : JSNum :=
  a.x * b.x + a.y * b.y + a.z * b.z

/-- All three components are finite numbers. -/
def Vector3.isFinite (v : Vector3) : Bool :=
  v.x.isFinite && v.y.isFinite && v.z.isFinite

/-- The members of the builtin `Math` object that the component uses. -/
structure JSMath where
  PI : JSNum
  sin : JSNum → JSNum
  cos : JSNum → JSNum
  sqrt : JSNum → JSNum
  asin : JSNum → JSNum
  atan2 : JSNum → JSNum → JSNum

/-- A position or velocity vector returned by the propagation library. -/
structure EciVec where
  x : JSNum
  y : JSNum
  z : JSNum

/-- Result of `satellite.propagate`; a member is `none` when it is missing or false. -/
structure PositionAndVelocity where
  position : Option EciVec
  velocity : Option EciVec

/-- Geodetic coordinates as the library gives them (angles in radians, height in km). -/
structure Geodetic where
  longitude : JSNum
  latitude : JSNum
  height : JSNum

/-- Look angles: azimuth and elevation in radians, range in kilometres. -/
structure LookAngles where
  azimuth : JSNum
  elevation : JSNum
  range : JSNum

/-- The functions of `window.satellite` called by the component, over the library's own
record type `Satrec`. -/
structure SatelliteJs (Satrec : Type) where
  propagate : Satrec → JSDate → PositionAndVelocity
  gstime : JSDate → JSNum
  eciToGeodetic : EciVec → JSNum → Option Geodetic
  degreesLong : JSNum → JSNum
  degreesLat : JSNum → JSNum
  geodeticToEcf : Geodetic → EciVec
  eciToEcf : EciVec → JSNum → EciVec
  ecfToAziEle : EciVec → EciVec → LookAngles

/-- The sample returned by `calculateSatellitePosition`. -/
structure PositionData where
  position : Vector3
  latitude : JSNum
  longitude : JSNum
  altitude : JSNum
  velocity : JSNum

/-- Function `eciToGeodetic` of the component: `null` when the library is not loaded. -/
def eciToGeodetic {Satrec : Type} (satellite : Option (SatelliteJs Satrec)) (eci : EciVec)
    (gdtime : JSDate) : Option Geodetic :=
  match satellite with
  | some lib =>
    let gmst := lib.gstime gdtime
    lib.eciToGeodetic eci gmst
  | none => none

/-- Function `calculateSatellitePosition`. -/
def calculateSatellitePosition {Satrec : Type} (M : JSMath)
    (satellite : Option (SatelliteJs Satrec)) (satrec : Satrec) (date : JSDate) :
    Option PositionData :=
  match satellite with
  | none => none
  | some lib =>
    let positionAndVelocity := lib.propagate satrec date
    match positionAndVelocity.position with
    | none => none
    | some positionEci =>
      if positionEci.x.isNaN || positionEci.y.isNaN || positionEci.z.isNaN then none
      else
        match eciToGeodetic satellite positionEci date with
        | none => none
        | some geodetic =>
          if geodetic.latitude.isNaN || geodetic.longitude.isNaN || geodetic.height.isNaN then
            none
          else
            let longitude := lib.degreesLong geodetic.longitude
            let latitude := lib.degreesLat geodetic.latitude
            let altitude := geodetic.height
            let R : JSNum := 6371
            let scale : JSNum := JSNum.fin (1 / 10000)
            let scaledAltitude := (R + altitude) * scale
            let phi := (90 - latitude) * (M.PI / 180)
            let theta := (longitude + 180) * (M.PI / 180)
            let x := -scaledAltitude * M.sin phi * M.cos theta
            let y := scaledAltitude * M.cos phi
            let z := scaledAltitude * M.sin phi * M.sin theta
            some
              { position := { x := x, y := y, z := z }
                latitude := latitude
                longitude := longitude
                altitude := altitude
                velocity :=
                  match positionAndVelocity.velocity with
                  | some v => M.sqrt (v.x * v.x + v.y * v.y + v.z * v.z)
                  | none => 0 }

/-- Function `geodeticToSpherical` (every call in the component passes all four arguments;
the altitude is not used by the body). -/
def geodeticToSpherical (M : JSMath) (latitude longitude _altitude radius : JSNum) : Vector3 :=
  let latRad := latitude * (M.PI / 180)
  let lonRad := longitude * (M.PI / 180)
  let x := radius * M.cos latRad * M.cos lonRad
  let y := radius * M.sin latRad
  let z := radius * M.cos latRad * M.sin lonRad
  { x := x, y := y, z := z }

/-- An observer location; a member is `none` when it is undefined. -/
structure Observer where
  latitude : Option JSNum
  longitude : Option JSNum

/-- Function `getSatelliteLookAngles`, as far as its library calls return: the member
`ecfToAziEle` is taken from the library record.  `getSatelliteLookAnglesCompletion` below
adds the case of a library object without that member. -/
def getSatelliteLookAngles {Satrec : Type} (M : JSMath)
    (satellite : Option (SatelliteJs Satrec)) (satrec : Satrec) (observer : Option Observer)
    (date : JSDate) : Option LookAngles :=
  match satellite, observer with
  | some lib, some obs =>
    match obs.latitude, obs.longitude with
    | some obsLat, some obsLon =>
      let observerGd : Geodetic :=
        { latitude := obsLat * M.PI / 180, longitude := obsLon * M.PI / 180, height := 0 }
      let positionAndVelocity := lib.propagate satrec date
      let gmst := lib.gstime date
      let observerEcf := lib.geodeticToEcf observerGd
      match positionAndVelocity.position with
      | none => none
      | some positionEci =>
        if positionEci.x.isNaN || positionEci.y.isNaN || positionEci.z.isNaN then none
        else
          let positionEcf := lib.eciToEcf positionEci gmst
          let lookAngles := lib.ecfToAziEle observerEcf positionEcf
          some
            { azimuth := lookAngles.azimuth
              elevation := lookAngles.elevation
              range := lookAngles.range }
    | _, _ => none
  | _, _ => none

/-! ## The per-object part of a tick -/

/-- Retained-point limit of both history buffers. -/
def maxHistoryPoints : ℕ := 5000

/-- History append: `push` the point, then `shift` the oldest one out when the length
exceeds 5000. -/
def pushBounded (buf : List Vector3) (p : Vector3) : List Vector3 :=
  let pushed := buf ++ [p]
  if pushed.length > maxHistoryPoints then pushed.tail else pushed

/-- The NaN test made before a point is pushed: no component is NaN. -/
def noNaNComponent (p : Vector3) : Bool :=
  !p.x.isNaN && !p.y.isNaN && !p.z.isNaN

/-- Longitude normalisation of the ground-track test: `(lon + 540) % 360 - 180`, taken
exactly; `normalizeLongitude64` rounds the sum and the difference to binary64. -/
def normalizeLongitude (lon : JSNum) : JSNum :=
  (lon + 540) % 360 - 180

/-- The longitude-jump test on the previous and the current longitude, both in degrees:
`Math.abs(normalizedLastLon - normalizedCurrentLon) > 180`, with exact arithmetic;
`longitudeJump64` is the test in binary64. -/
def longitudeJump (lastLon currentLon : JSNum) : Bool :=
  let normalizedLastLon := normalizeLongitude lastLon
  let normalizedCurrentLon := normalizeLongitude currentLon
  let deltaLon := JSNum.abs (normalizedLastLon - normalizedCurrentLon)
  JSNum.gt deltaLon 180

/-- Longitude normalisation in binary64: the sum `lon + 540` and the difference from 180 are
rounded; the remainder `%` of two binary64 numbers is exact. -/
def normalizeLongitude64 (lon : JSNum) : JSNum :=
  JSNum.toDouble (JSNum.toDouble (lon + 540) % 360 - 180)

/-- The longitude-jump test in binary64 arithmetic. -/
def longitudeJump64 (lastLon currentLon : JSNum) : Bool :=
  let normalizedLastLon := normalizeLongitude64 lastLon
  let normalizedCurrentLon := normalizeLongitude64 currentLon
  let deltaLon := JSNum.abs (JSNum.toDouble (normalizedLastLon - normalizedCurrentLon))
  JSNum.gt deltaLon 180

/-- What the `animate` closure reads during one tick. -/
structure Frame (Satrec : Type) where
  satellite : Option (SatelliteJs Satrec)
  simulationTime : JSDate
  deltaTime : JSNum
  timeMultiplier : JSNum
  selectedSatellite : Option String
  userHomeLocation : Option Observer
  filters : String → Option Bool
  hideBehindEarth : Bool
  hideNightSide : Bool
  earthPosition : Vector3
  cameraPosition : Vector3
  sunLightPosition : Vector3

/-- A tracked object: identity, propagator record, mesh position, the visibility of its
scene objects and the two history buffers. -/
structure Sat (Satrec : Type) where
  name : String
  type : String
  satrec : Satrec
  meshPosition : Vector3
  meshVisible : Bool
  labelVisible : Bool
  orbitLineVisible : Bool
  groundTrackLineVisible : Bool
  orbitalPlaneVisible : Bool
  pathPoints : List Vector3
  groundTrackPoints : List Vector3

/-- Both buffers of an object are within the retained-point limit. -/
def Sat.bounded {Satrec : Type} (sat : Sat Satrec) : Prop :=
  sat.pathPoints.length ≤ maxHistoryPoints ∧ sat.groundTrackPoints.length ≤ maxHistoryPoints

/-- The value stored in `selectedSatelliteDisplayDataRef`. -/
structure DisplayData where
  positionData : PositionData
  lookAngles : Option LookAngles

/-- A `console.warn` call: the message and the point passed with it. -/
structure Warning where
  message : String
  point : Vector3

/-- State shared by all objects during a tick: the display-data ref and the console. -/
structure Shared where
  displayData : Option DisplayData
  console : List Warning

/-- The test `selectedSatellite && sat.name === selectedSatellite.name`. -/
def isSelected (selectedSatellite : Option String) (name : String) : Bool :=
  match selectedSatellite with
  | some selectedName => name == selectedName
  | none => false

/-- The antimeridian check of `animate`: with a non-empty ground track, re-propagate at the
previous instant and test the longitude jump against the current sample. -/
def groundTrackDiscontinuity {Satrec : Type} (lib : SatelliteJs Satrec) (fr : Frame Satrec)
    (sat : Sat Satrec) (positionData : PositionData) : Bool :=
  if sat.groundTrackPoints.length > 0 then
    let lastDate := newDate (fr.simulationTime.getTime - fr.deltaTime * fr.timeMultiplier)
    let lastPositionAndVelocity := lib.propagate sat.satrec lastDate
    let lastLatLon : Option Geodetic :=
      match lastPositionAndVelocity.position with
      | some lastPositionEci =>
        if !lastPositionEci.x.isNaN && !lastPositionEci.y.isNaN && !lastPositionEci.z.isNaN then
          lib.eciToGeodetic lastPositionEci (lib.gstime lastDate)
        else none
      | none => none
    match lastLatLon with
    | some last =>
      if !last.longitude.isNaN then
        longitudeJump (lib.degreesLong last.longitude) positionData.longitude
      else false
    | none => false
  else false

/-- The truthiness test `filters[sat.type]`. -/
def filterEnabled (filters : String → Option Bool) (type : String) : Bool :=
  (filters type).getD false

/-- The initial value of the `filters` state: the seven category keys, each `true`. -/
def initialFilters : String → Option Bool := fun type =>
  if type = "Starlink" ∨ type = "GPS" ∨ type = "ISS" ∨ type = "Hubble" ∨ type = "Weather" ∨
      type = "EarthObservation" ∨ type = "GroundStations" then some true
  else none

/-- Satellite visibility logic of `animate`: type filter, then hide behind Earth, then hide
on the night side.  `normalize` is the vector normalisation of the rendering library. -/
def satelliteVisibility {Satrec : Type} (normalize : Vector3 → Vector3) (fr : Frame Satrec)
    (type : String) (meshPosition : Vector3) : Bool :=
  let isVisible := true
  let isVisible := if !filterEnabled fr.filters type then false else isVisible
  let isVisible :=
    if isVisible && fr.hideBehindEarth then
      let satPosRelative := meshPosition.sub fr.earthPosition
      let cameraPosRelative := fr.cameraPosition.sub fr.earthPosition
      if JSNum.lt (satPosRelative.dot cameraPosRelative) 0 then false else isVisible
    else isVisible
  let isVisible :=
    if isVisible && fr.hideNightSide then
      let satPosRelative := meshPosition.sub fr.earthPosition
      let sunDirection := normalize fr.sunLightPosition
      if JSNum.lt (satPosRelative.dot sunDirection) 0 then false else isVisible
    else isVisible
  isVisible

/-- The guarded append made for both history buffers: a point with no NaN component is
pushed (and the oldest point shifted out beyond 5000 points); any other point is skipped
and `console.warn` is called with the object's name.  `what` is "orbit path" or
"ground track". -/
def appendHistoryPoint (what name : String) (buf : List Vector3) (p : Vector3)
    (console : List Warning) : List Vector3 × List Warning :=
  if noNaNComponent p then (pushBounded buf p, console)
  else
    (buf, console ++
      [{ message := "Skipping " ++ what ++ " point for " ++ name ++ " due to NaN position:"
         point := p }])

/-- The ground point of a sample:
`geodeticToSpherical(positionData.latitude, positionData.longitude, 0, 0.6371 + 0.001)`. -/
def groundPoint (M : JSMath) (positionData : PositionData) : Vector3 :=
  geodeticToSpherical M positionData.latitude positionData.longitude 0
    (JSNum.fin (6371 / 10000) + JSNum.fin (1 / 1000))

/-- Body of `satellites.forEach` in `animate` for one object, run to its end (no call
throws); `updateSatelliteCompletion` below adds the exception of the look-angle call. -/
def updateSatellite {Satrec : Type} (M : JSMath) (normalize : Vector3 → Vector3)
    (fr : Frame Satrec) (sat : Sat Satrec) (sh : Shared) : Sat Satrec × Shared :=
  match fr.satellite with
  | none =>
    ({ sat with
        meshVisible := false, labelVisible := false, orbitLineVisible := false
        groundTrackLineVisible := false, orbitalPlaneVisible := false }, sh)
  | some lib =>
    match calculateSatellitePosition M fr.satellite sat.satrec fr.simulationTime with
    | some positionData =>
      let selected := isSelected fr.selectedSatellite sat.name
      let displayData :=
        if selected then
          let lookAngles :=
            match fr.userHomeLocation with
            | some home =>
              if home.latitude.isSome && home.longitude.isSome then
                getSatelliteLookAngles M fr.satellite sat.satrec fr.userHomeLocation
                  fr.simulationTime
              else none
            | none => none
          some { positionData := positionData, lookAngles := lookAngles }
        else sh.displayData
      let path := appendHistoryPoint "orbit path" sat.name sat.pathPoints positionData.position
        sh.console
      if selected then
        let newGroundPoint := groundPoint M positionData
        let kept :=
          if groundTrackDiscontinuity lib fr sat positionData then [] else sat.groundTrackPoints
        let ground := appendHistoryPoint "ground track" sat.name kept newGroundPoint path.2
        let isVisible := satelliteVisibility normalize fr sat.type positionData.position
        ({ sat with
            meshPosition := positionData.position
            pathPoints := path.1
            groundTrackPoints := ground.1
            groundTrackLineVisible := true
            meshVisible := isVisible, labelVisible := isVisible, orbitLineVisible := isVisible },
          { displayData := displayData, console := ground.2 })
      else
        let isVisible := satelliteVisibility normalize fr sat.type positionData.position
        ({ sat with
            meshPosition := positionData.position
            pathPoints := path.1
            groundTrackPoints := []
            groundTrackLineVisible := false
            orbitalPlaneVisible := false
            meshVisible := isVisible, labelVisible := isVisible, orbitLineVisible := isVisible },
          { displayData := displayData, console := path.2 })
    | none =>
      ({ sat with
          meshVisible := false, labelVisible := false, orbitLineVisible := false
          groundTrackLineVisible := false, orbitalPlaneVisible := false }, sh)

/-- The loop `satellites.forEach(...)` of one tick. -/
def forEachSatellite {Satrec : Type} (M : JSMath) (normalize : Vector3 → Vector3)
    (fr : Frame Satrec) : List (Sat Satrec) → Shared → List (Sat Satrec) × Shared
  | [], sh => ([], sh)
  | sat :: rest, sh =>
    let r := updateSatellite M normalize fr sat sh
    let rs := forEachSatellite M normalize fr rest r.2
    (r.1 :: rs.1, rs.2)

/-- A run of ticks: the loop is applied once per frame, in order. -/
def runFrames {Satrec : Type} (M : JSMath) (normalize : Vector3 → Vector3) :
    List (Frame Satrec) → List (Sat Satrec) × Shared → List (Sat Satrec) × Shared
  | [], st => st
  | fr :: rest, st => runFrames M normalize rest (forEachSatellite M normalize fr st.1 st.2)

/-! ## Exceptions raised inside a tick -/

/-- Completion of a call: it returns a value or it throws an error. -/
inductive Completion (α : Type) where
  | returned (value : α)
  | thrown (error : String)
deriving DecidableEq

/-- The error raised by calling `window.satellite.ecfToAziEle` on a library object that has
no member of that name. -/
def ecfToAziEleTypeError : String :=
  "TypeError: window.satellite.ecfToAziEle is not a function"

/-- Function `getSatelliteLookAngles` with the member lookup of its last library call:
`exportsEcfToAziEle` says whether the loaded `window.satellite` has a member `ecfToAziEle`.
Calling a missing member throws a TypeError; with the member present the function returns
what `getSatelliteLookAngles` above returns. -/
def getSatelliteLookAnglesCompletion {Satrec : Type} (M : JSMath)
    (satellite : Option (SatelliteJs Satrec)) (exportsEcfToAziEle : Bool) (satrec : Satrec)
    (observer : Option Observer) (date : JSDate) : Completion (Option LookAngles) :=
  match satellite, observer with
  | some lib, some obs =>
    match obs.latitude, obs.longitude with
    | some obsLat, some obsLon =>
      let observerGd : Geodetic :=
        { latitude := obsLat * M.PI / 180, longitude := obsLon * M.PI / 180, height := 0 }
      let positionAndVelocity := lib.propagate satrec date
      let gmst := lib.gstime date
      let observerEcf := lib.geodeticToEcf observerGd
      match positionAndVelocity.position with
      | none => Completion.returned none
      | some positionEci =>
        if positionEci.x.isNaN || positionEci.y.isNaN || positionEci.z.isNaN then
          Completion.returned none
        else
          let positionEcf := lib.eciToEcf positionEci gmst
          if exportsEcfToAziEle then
            let lookAngles := lib.ecfToAziEle observerEcf positionEcf
            Completion.returned
              (some
                { azimuth := lookAngles.azimuth
                  elevation := lookAngles.elevation
                  range := lookAngles.range })
          else Completion.thrown ecfToAziEleTypeError
    | _, _ => Completion.returned none
  | _, _ => Completion.returned none

/-- Outcome of a tick, or of a part of one: the objects and the shared state as they are
when control leaves the loop, and the error if an exception ended it. -/
structure TickOutcome (Satrec : Type) where
  satellites : List (Sat Satrec)
  shared : Shared
  thrown : Option String

/-- Body of `satellites.forEach` for one object, with the exception that the look-angle call
can raise.  The call is made for the selected object when a home location with latitude and
longitude is set; when it throws, the statement before it has run (the mesh position is
copied) and nothing after it runs.  In every other case the body runs to its end as
`updateSatellite` describes. -/
def updateSatelliteCompletion {Satrec : Type} (M : JSMath) (normalize : Vector3 → Vector3)
    (exportsEcfToAziEle : Bool) (fr : Frame Satrec) (sat : Sat Satrec) (sh : Shared) :
    Sat Satrec × Shared × Option String :=
  let completed : Sat Satrec × Shared × Option String :=
    ((updateSatellite M normalize fr sat sh).1, (updateSatellite M normalize fr sat sh).2, none)
  match calculateSatellitePosition M fr.satellite sat.satrec fr.simulationTime with
  | some positionData =>
    if isSelected fr.selectedSatellite sat.name then
      match fr.userHomeLocation with
      | some home =>
        if home.latitude.isSome && home.longitude.isSome then
          match getSatelliteLookAnglesCompletion M fr.satellite exportsEcfToAziEle sat.satrec
              fr.userHomeLocation fr.simulationTime with
          | Completion.thrown error =>
            ({ sat with meshPosition := positionData.position }, sh, some error)
          | Completion.returned _ => completed
        else completed
      | none => completed
    else completed
  | none => completed

/-- The loop `satellites.forEach(...)` of one tick with exceptions: an exception raised for
one object leaves the loop at once, so the objects after it are not visited. -/
def forEachSatelliteCompletion {Satrec : Type} (M : JSMath) (normalize : Vector3 → Vector3)
    (exportsEcfToAziEle : Bool) (fr : Frame Satrec) :
    List (Sat Satrec) → Shared → TickOutcome Satrec
  | [], sh => { satellites := [], shared := sh, thrown := none }
  | sat :: rest, sh =>
    match updateSatelliteCompletion M normalize exportsEcfToAziEle fr sat sh with
    | (sat2, sh2, some error) =>
      { satellites := sat2 :: rest, shared := sh2, thrown := some error }
    | (sat2, sh2, none) =>
      let rs := forEachSatelliteCompletion M normalize exportsEcfToAziEle fr rest sh2
      { rs with satellites := sat2 :: rs.satellites }

/-! ## Event handlers -/

/-- Earth branch of `onCanvasClick`: latitude and longitude in degrees of the clicked point
of the globe, as computed before they are formatted for display. -/
def earthPointToLatLon (M : JSMath) (intersectionPoint : Vector3) : JSNum × JSNum :=
  let earthRadius : JSNum := JSNum.fin (6371 / 10000)
  let lat := M.asin (intersectionPoint.y / earthRadius) * (180 / M.PI)
  let lon := M.atan2 intersectionPoint.z intersectionPoint.x * (180 / M.PI)
  (lat, lon)

/-- What `handleSetHomeLocation` acts on: the home location state and the messages passed to
`console.error` and to `alert`. -/
structure HomeLocationState where
  userHomeLocation : Option Observer
  consoleErrors : List String
  alerts : List String

/-- The message reported for a rejected home location. -/
def invalidHomeLocationMessage : String :=
  "Invalid latitude or longitude. Please enter values between -90 to 90 for latitude and " ++
    "-180 to 180 for longitude."

/-- Function `handleSetHomeLocation`.  The conversion `parseFloat` is the language builtin
and is a parameter. -/
def handleSetHomeLocation (parseFloat : String → JSNum) (inputLatitude inputLongitude : String)
    (s : HomeLocationState) : HomeLocationState :=
  let lat := parseFloat inputLatitude
  let lon := parseFloat inputLongitude
  if !lat.isNaN && !lon.isNaN && JSNum.ge lat (JSNum.fin (-90)) && JSNum.le lat 90 &&
      JSNum.ge lon (JSNum.fin (-180)) && JSNum.le lon 180 then
    { s with userHomeLocation := some { latitude := some lat, longitude := some lon } }
  else
    { s with
        consoleErrors := s.consoleErrors ++ [invalidHomeLocationMessage]
        alerts := s.alerts ++ [invalidHomeLocationMessage] }

/-- The record written for an object whose position computation failed: every scene object
of it hidden, everything else as it was. -/
def Sat.hidden {Satrec : Type} (sat : Sat Satrec) : Sat Satrec :=
  { sat with
      meshVisible := false, labelVisible := false, orbitLineVisible := false
      groundTrackLineVisible := false, orbitalPlaneVisible := false }

/-! ## The built-in catalogue -/

/-- An entry of `TLE_DATA`: name, category tag and the two element lines.  The icon class
and the descriptive details of an entry are display data and are left out. -/
structure TleEntry where
  name : String
  type : String
  line1 : String
  line2 : String

/-- How a template literal renders the number `h / 2` for a natural number `h`: a whole
number in decimal, a half with `.5` after the whole part. -/
def halvesToString (h : ℕ) : String :=
  if h % 2 = 0 then toString (h / 2) else toString (h / 2) ++ ".5"

/-- The GPS template of `TLE_DATA` at index `i`. -/
def gpsEntry (i : ℕ) : TleEntry :=
  { name := "GPS (NAVSTAR " ++ toString (75 + i) ++ ")"
    type := "GPS"
    line1 := "1 4827" ++ toString (4 + i) ++
      "U 21063A   25194.50000000  .00000000  00000-0  00000-0 0  9999"
    line2 := "2 4827" ++ toString (4 + i) ++ "  55.0000 " ++ toString (150 + i * 5) ++
      ".0000 0001000 " ++ toString (180 + i * 5) ++ ".0000 " ++ toString (180 - i * 5) ++
      ".0000  2.00000000000000" }

/-- The Starlink template of `TLE_DATA` at index `i`; `300 + i * 0.5` is the half of
`600 + i`, and likewise for the other two angles. -/
def starlinkEntry (i : ℕ) : TleEntry :=
  { name := "STARLINK-" ++ toString (1000 + i)
    type := "Starlink"
    line1 := "1 4471" ++ toString (9 + i) ++
      "U 19074A   25194.50000000  .00000000  00000-0  00000-0 0  9999"
    line2 := "2 4471" ++ toString (9 + i) ++ "  53.0000 " ++ halvesToString (600 + i) ++
      ".0000 0001000 " ++ halvesToString (200 + i) ++ ".0000 " ++ halvesToString (520 - i) ++
      ".0000 15.20000000000000" }

/-- The constant `TLE_DATA`. -/
def TLE_DATA : List TleEntry :=
  [{ name := "ISS (ZARYA)"
     type := "ISS"
     line1 := "1 25544U 98067A   25194.50000000  .00000000  00000-0  00000-0 0  9999"
     line2 := "2 25544  51.6416 119.2942 0005700 248.0673 111.9327 15.49887750456789" },
   { name := "HUBBLE SPACE TELESCOPE"
     type := "Hubble"
     line1 := "1 20580U 90037B   25194.50000000  .00000000  00000-0  00000-0 0  9999"
     line2 := "2 20580  28.4700 200.0000 0002700 250.0000 110.0000 15.00000000000000" }] ++
  (List.range 5).map gpsEntry ++
  (List.range 50).map starlinkEntry ++
  [{ name := "NOAA 15"
     type := "Weather"
     line1 := "1 25338U 98030A   25194.50000000  .00000000  00000-0  00000-0 0  9999"
     line2 := "2 25338  98.7400 30.0000 0010000 90.0000 270.0000 14.20000000000000" },
   { name := "GOES 16"
     type := "Weather"
     line1 := "1 42054U 16071A   25194.50000000  .00000000  00000-0  00000-0 0  9999"
     line2 := "2 42054   0.0000 280.0000 0000000 0.0000 0.0000  1.00273790000000" },
   { name := "TERRA (EOS AM-1)"
     type := "EarthObservation"
     line1 := "1 25994U 99068A   25194.50000000  .00000000  00000-0  00000-0 0  9999"
     line2 := "2 25994  98.2000 100.0000 0001000 150.0000 210.0000 14.50000000000000" },
   { name := "AQUA (EOS PM-1)"
     type := "EarthObservation"
     line1 := "1 27424U 02022A   25194.50000000  .00000000  00000-0  00000-0 0  9999"
     line2 := "2 27424  98.2000 200.0000 0001000 200.0000 160.0000 14.50000000000000" }]

/-- Width of a two-line element line. -/
def tleLineWidth : ℕ := 69

/-- Both element lines of an entry have the fixed width. -/
def TleEntry.wellFormed (e : TleEntry) : Bool :=
  e.line1.length == tleLineWidth && e.line2.length == tleLineWidth

/-- Function `handleFilterChange`: the updater `prevFilters => ({ ...prevFilters,
[type]: !prevFilters[type] })` applied to the filter map. -/
def handleFilterChange (type : String) (prevFilters : String → Option Bool) :
    String → Option Bool :=
  fun key => if key = type then some (!filterEnabled prevFilters type) else prevFilters key

/-- A ground station of the scene: its mesh position and the visibility of its mesh and
its label. -/
structure GroundStation where
  name : String
  meshPosition : Vector3
  meshVisible : Bool
  labelVisible : Bool

/-- Ground station visibility logic of `animate` for one station. -/
def updateGroundStation {Satrec : Type} (normalize : Vector3 → Vector3) (fr : Frame Satrec)
    (station : GroundStation) : GroundStation :=
  let stationPosWorld := station.meshPosition
  let cameraPosWorld := fr.cameraPosition
  let vecEarthToStation := normalize (stationPosWorld.sub fr.earthPosition)
  let vecEarthToCamera := normalize (cameraPosWorld.sub fr.earthPosition)
  let isStationVisibleFromCamera := JSNum.gt (vecEarthToStation.dot vecEarthToCamera) 0
  { station with
      meshVisible := filterEnabled fr.filters "GroundStations" && isStationVisibleFromCamera
      labelVisible := filterEnabled fr.filters "GroundStations" && isStationVisibleFromCamera }

/-! ## Sample data

Concrete values at which the theorems below are instantiated. -/

/-- A stand-in for `Math` with rational values: low-order polynomial approximations of the
sine, cosine, arcsine and arctangent, the whole part of the square root, and 355/113 for
pi. -/
def sampleMath : JSMath :=
  { PI := JSNum.fin (355 / 113)
    sin := fun a =>
      match a with
      | JSNum.fin q => JSNum.fin (q - q ^ 3 / 6)
      | _ => JSNum.nan
    cos := fun a =>
      match a with
      | JSNum.fin q => JSNum.fin (1 - q ^ 2 / 2)
      | _ => JSNum.nan
    sqrt := fun a =>
      match a with
      | JSNum.fin q => if q < 0 then JSNum.nan else JSNum.fin (Nat.sqrt ⌊q⌋.toNat)
      | JSNum.posInf => JSNum.posInf
      | _ => JSNum.nan
    asin := fun a =>
      match a with
      | JSNum.fin q => if |q| ≤ 1 then JSNum.fin q else JSNum.nan
      | _ => JSNum.nan
    atan2 := fun a b =>
      match a, b with
      | JSNum.fin y, JSNum.fin x => if x = 0 then JSNum.fin 0 else JSNum.fin (y / x)
      | _, _ => JSNum.nan }

/-- A stand-in for vector normalisation: division by the sum of the absolute components (by
1 for the zero vector).  It keeps the direction, and it is the Euclidean normalisation on
vectors along a coordinate axis. -/
def sampleNormalize (v : Vector3) : Vector3 :=
  let l := JSNum.abs v.x + JSNum.abs v.y + JSNum.abs v.z
  let l := if l = JSNum.fin 0 then JSNum.fin 1 else l
  { x := v.x / l, y := v.y / l, z := v.z / l }

/-- A stand-in library over a one-element record type: a fixed inertial state, and a
sub-satellite longitude of 179 degrees at sidereal time 0 and of -179 degrees at any other
time, with a height of `height` km. -/
def sampleLibWithHeight (height : JSNum) : SatelliteJs Unit :=
  { propagate := fun _ _ =>
      { position := some { x := 7000, y := 0, z := 0 }
        velocity := some { x := 0, y := 7, z := 0 } }
    gstime := fun d => d.getTime
    eciToGeodetic := fun _ gmst =>
      some
        { longitude := if gmst = JSNum.fin 0 then JSNum.fin 179 else JSNum.fin (-179)
          latitude := 0
          height := height }
    degreesLong := fun a => a
    degreesLat := fun a => a
    geodeticToEcf := fun g => { x := g.longitude, y := g.latitude, z := g.height }
    eciToEcf := fun e _ => e
    ecfToAziEle := fun _ _ => { azimuth := 0, elevation := 0, range := 0 } }

/-- The stand-in library with a height of 629 km. -/
def sampleLib : SatelliteJs Unit := sampleLibWithHeight 629

/-- A frame at simulation time 1000 ms, one second of simulated time after time 0, with the
first catalogue object selected and the camera at its reset position. -/
def sampleFrame : Frame Unit :=
  { satellite := some sampleLib
    simulationTime := ⟨some 1000⟩
    deltaTime := 1000
    timeMultiplier := 1
    selectedSatellite := some "ISS (ZARYA)"
    userHomeLocation := none
    filters := initialFilters
    hideBehindEarth := true
    hideNightSide := false
    earthPosition := { x := 0, y := 0, z := 0 }
    cameraPosition := { x := 0, y := 0, z := 2 }
    sunLightPosition := { x := 5, y := 0, z := 0 } }

/-- The first catalogue object, as created: hidden nowhere, both buffers empty. -/
def sampleSat : Sat Unit :=
  { name := "ISS (ZARYA)"
    type := "ISS"
    satrec := ()
    meshPosition := { x := 0, y := 0, z := 0 }
    meshVisible := true
    labelVisible := true
    orbitLineVisible := true
    groundTrackLineVisible := false
    orbitalPlaneVisible := false
    pathPoints := []
    groundTrackPoints := [] }

/-- The first catalogue object with one point already on its ground track. -/
def sampleSatTracked : Sat Unit :=
  { sampleSat with groundTrackPoints := [{ x := 0, y := 0, z := 1 }] }

/-- The sample that `calculateSatellitePosition` returns for the stand-in library at any
time other than 0. -/
def samplePositionData : PositionData :=
  { position :=
      { x := -((6371 + 629) * JSNum.fin (1 / 10000))
            * sampleMath.sin ((90 - 0) * (sampleMath.PI / 180))
            * sampleMath.cos ((JSNum.fin (-179) + 180) * (sampleMath.PI / 180))
        y := (6371 + 629) * JSNum.fin (1 / 10000)
            * sampleMath.cos ((90 - 0) * (sampleMath.PI / 180))
        z := (6371 + 629) * JSNum.fin (1 / 10000)
            * sampleMath.sin ((90 - 0) * (sampleMath.PI / 180))
            * sampleMath.sin ((JSNum.fin (-179) + 180) * (sampleMath.PI / 180)) }
    latitude := 0
    longitude := JSNum.fin (-179)
    altitude := 629
    velocity := sampleMath.sqrt (0 * 0 + 7 * 7 + 0 * 0) }

/-- A piecewise-linear wave of period 4 through the values 0, 1, 0, -1 at 0, 1, 2, 3. -/
def triangleWave (t : ℚ) : ℚ :=
  let u := t - 4 * (⌊(t + 1) / 4⌋ : ℚ)
  if u ≤ 1 then u else 2 - u

/-- A second stand-in for `Math`, exact at the quarter turns: with 355/113 for pi, the sine
and the cosine are the piecewise-linear waves through their values at the multiples of pi/2,
and the arcsine is the inverse of that sine on [-1, 1] (NaN outside, as in the language). -/
def triangleMath : JSMath :=
  { PI := JSNum.fin (355 / 113)
    sin := fun a =>
      match a with
      | JSNum.fin q => JSNum.fin (triangleWave (q / (355 / 226)))
      | _ => JSNum.nan
    cos := fun a =>
      match a with
      | JSNum.fin q => JSNum.fin (triangleWave (q / (355 / 226) + 1))
      | _ => JSNum.nan
    sqrt := sampleMath.sqrt
    asin := fun a =>
      match a with
      | JSNum.fin q => if |q| ≤ 1 then JSNum.fin (q * (355 / 226)) else JSNum.nan
      | _ => JSNum.nan
    atan2 := sampleMath.atan2 }

/-- A stand-in library whose geodetic conversion always gives the same longitude, latitude
and height; its degree conversions are the identity, so the angles are read as degrees. -/
def fixedPointLib (longitude latitude height : JSNum) : SatelliteJs Unit :=
  { sampleLib with
      eciToGeodetic := fun _ _ =>
        some { longitude := longitude, latitude := latitude, height := height } }

/-- A stand-in for `parseFloat` that knows four input strings. -/
def sampleParseFloat (input : String) : JSNum :=
  if input = "51.5" then JSNum.fin (103 / 2)
  else if input = "-0.12" then JSNum.fin (-(3 / 25))
  else if input = "91" then JSNum.fin 91
  else JSNum.nan

/-- A stand-in library over records that say whether their propagation succeeds: `true`
propagates as `sampleLib` does, `false` gives no position. -/
def partialLib : SatelliteJs Bool :=
  { propagate := fun ok date =>
      if ok then sampleLib.propagate () date else { position := none, velocity := none }
    gstime := sampleLib.gstime
    eciToGeodetic := sampleLib.eciToGeodetic
    degreesLong := sampleLib.degreesLong
    degreesLat := sampleLib.degreesLat
    geodeticToEcf := sampleLib.geodeticToEcf
    eciToEcf := sampleLib.eciToEcf
    ecfToAziEle := sampleLib.ecfToAziEle }

/-- The sample frame over `partialLib`. -/
def partialFrame : Frame Bool :=
  { satellite := some partialLib
    simulationTime := ⟨some 1000⟩
    deltaTime := 1000
    timeMultiplier := 1
    selectedSatellite := some "ISS (ZARYA)"
    userHomeLocation := none
    filters := initialFilters
    hideBehindEarth := true
    hideNightSide := false
    earthPosition := { x := 0, y := 0, z := 0 }
    cameraPosition := { x := 0, y := 0, z := 2 }
    sunLightPosition := { x := 5, y := 0, z := 0 } }

/-- A catalogue object of `partialFrame` with the given name and propagation outcome. -/
def partialSat (name : String) (ok : Bool) : Sat Bool :=
  { name := name
    type := "Starlink"
    satrec := ok
    meshPosition := { x := 0, y := 0, z := 0 }
    meshVisible := true
    labelVisible := true
    orbitLineVisible := true
    groundTrackLineVisible := false
    orbitalPlaneVisible := false
    pathPoints := [{ x := 0, y := 0, z := 1 }]
    groundTrackPoints := [] }

/-- The sample frame over the stand-in library with an infinite geodetic height. -/
def infiniteHeightFrame : Frame Unit :=
  { sampleFrame with satellite := some (sampleLibWithHeight JSNum.posInf) }

/-- The sample that `calculateSatellitePosition` returns in `infiniteHeightFrame`: every
coordinate of the scene position is infinite. -/
def infiniteHeightPositionData : PositionData :=
  { samplePositionData with
      position := { x := JSNum.negInf, y := JSNum.negInf, z := JSNum.posInf }
      altitude := JSNum.posInf }

/-- The frame over `partialLib` with a home location at latitude 10 and longitude 20. -/
def homeFrame : Frame Bool :=
  { partialFrame with userHomeLocation := some { latitude := some 10, longitude := some 20 } }

/-! ## Arithmetic of the number model -/

theorem JSNum.ofNat_eq (n : ℕ) : (OfNat.ofNat n : JSNum) = JSNum.fin (n : ℚ) := rfl

theorem JSNum.fin_add_fin (a b : ℚ) : JSNum.fin a + JSNum.fin b = JSNum.fin (a + b) := rfl

theorem JSNum.fin_sub_fin (a b : ℚ) : JSNum.fin a - JSNum.fin b = JSNum.fin (a - b) := by
  show JSNum.add (JSNum.fin a) (JSNum.neg (JSNum.fin b)) = _
  simp [JSNum.add, JSNum.neg, sub_eq_add_neg]

theorem JSNum.fin_mul_fin (a b : ℚ) : JSNum.fin a * JSNum.fin b = JSNum.fin (a * b) := rfl

theorem JSNum.fin_rem_fin (a b : ℚ) (hb : b ≠ 0) :
    JSNum.fin a % JSNum.fin b = JSNum.fin (a - b * (JSNum.truncQ (a / b) : ℚ)) := by
  show JSNum.rem (JSNum.fin a) (JSNum.fin b) = _
  simp [JSNum.rem, hb]

theorem JSNum.truncQ_of_nonneg {q : ℚ} (h : 0 ≤ q) : JSNum.truncQ q = ⌊q⌋ := by
  simp [JSNum.truncQ, h]

theorem JSNum.truncQ_intCast (k : ℤ) : JSNum.truncQ (k : ℚ) = k := by
  unfold JSNum.truncQ
  split <;> simp

/-- Truncation never drops below a whole number that the argument reaches. -/
theorem JSNum.le_truncQ {t : ℤ} {q : ℚ} (h : (t : ℚ) ≤ q) : t ≤ JSNum.truncQ q := by
  unfold JSNum.truncQ
  split
  · exact Int.le_floor.mpr h
  · exact Int.cast_le.mp (le_trans h (Int.le_ceil q))

theorem normalizeLongitude_fin (q : ℚ) :
    normalizeLongitude (JSNum.fin q)
      = JSNum.fin (q + 540 - 360 * (JSNum.truncQ ((q + 540) / 360) : ℚ) - 180) := by
  unfold normalizeLongitude
  rw [JSNum.ofNat_eq 540, JSNum.ofNat_eq 360, JSNum.ofNat_eq 180, JSNum.fin_add_fin,
    JSNum.fin_rem_fin _ _ (by norm_num), JSNum.fin_sub_fin]
  norm_num

/-! ## Rounding to binary64: bounds and exact cases -/

theorem roundHalfEven_intCast (n : ℤ) : roundHalfEven (n : ℚ) = n := by
  simp [roundHalfEven]

theorem le_roundHalfEven {n : ℤ} {x : ℚ} (h : (n : ℚ) ≤ x) : n ≤ roundHalfEven x := by
  have hf : n ≤ ⌊x⌋ := Int.le_floor.mpr h
  unfold roundHalfEven
  dsimp only
  split
  · exact hf
  · split
    · omega
    · split <;> omega

theorem roundHalfEven_le {n : ℤ} {x : ℚ} (h : x ≤ (n : ℚ)) : roundHalfEven x ≤ n := by
  have hf : ⌊x⌋ ≤ n := Int.floor_le_iff.mpr (by linarith [Int.floor_le x] : x < n + 1) |>.trans_eq' rfl
  unfold roundHalfEven
  dsimp only
  split
  · exact hf
  · rename_i hr
    have hlt : (⌊x⌋ : ℚ) < x := by linarith
    have : (⌊x⌋ : ℚ) < n := lt_of_lt_of_le hlt h
    have : ⌊x⌋ < n := by exact_mod_cast this
    split
    · omega
    · split <;> omega

theorem binaryExponent_eq {q : ℚ} {e : ℤ} (h1 : (2 : ℚ) ^ e ≤ |q|) (h2 : |q| < (2 : ℚ) ^ (e + 1))
    (he : -1022 ≤ e) : binaryExponent q = e := by
  have hpos : 0 < |q| := lt_of_lt_of_le (by positivity) h1
  have hq : q ≠ 0 := abs_pos.mp hpos
  have hlog : Int.log 2 |q| = e := by
    have a1 : e ≤ Int.log 2 |q| := by
      rw [← Int.zpow_le_iff_le_log (by norm_num) hpos]
      simpa using h1
    have a2 : Int.log 2 |q| < e + 1 := by
      rw [← Int.lt_zpow_iff_log_lt (by norm_num) hpos]
      simpa using h2
    omega
  simp [binaryExponent, hq, hlog, he]

theorem binaryExponent_le {q : ℚ} {e : ℤ} (h2 : |q| < (2 : ℚ) ^ (e + 1))
    (he : -1022 ≤ e) : binaryExponent q ≤ e := by
  unfold binaryExponent
  split
  · exact he
  · rename_i hq
    have hpos : 0 < |q| := abs_pos.mpr hq
    have a2 : Int.log 2 |q| < e + 1 := by
      rw [← Int.lt_zpow_iff_log_lt (by norm_num) hpos]
      simpa using h2
    exact max_le (by omega) he

theorem binaryExponent_ge (q : ℚ) : -1022 ≤ binaryExponent q := by
  unfold binaryExponent
  split
  · exact le_refl _
  · exact le_max_right _ _

theorem ulp_pos (q : ℚ) : 0 < ulp q := by
  unfold ulp
  positivity

/-- Rounding to binary64 keeps a value between the neighbouring points of any grid of
spacing 2 ^ j on which the binary64 numbers of its magnitude lie. -/
theorem roundToDouble_bracket (x : ℚ) (j : ℤ) (hj : -1074 ≤ j) (hj2 : j + 53 < 1024)
    (hx : |x| < (2 : ℚ) ^ (j + 53)) :
    ∃ r : ℚ, roundToDouble x = JSNum.fin r ∧
      (∀ m : ℤ, (m : ℚ) * (2 : ℚ) ^ j ≤ x → (m : ℚ) * (2 : ℚ) ^ j ≤ r) ∧
      (∀ m : ℤ, x ≤ (m : ℚ) * (2 : ℚ) ^ j → r ≤ (m : ℚ) * (2 : ℚ) ^ j) := by
  have he : binaryExponent x ≤ j + 52 :=
    binaryExponent_le (by simpa [add_assoc] using hx) (by omega)
  have hu : 0 < ulp x := ulp_pos x
  obtain ⟨N, hN⟩ : ∃ N : ℕ, (N : ℤ) = j - (binaryExponent x - 52) :=
    ⟨(j - (binaryExponent x - 52)).toNat, Int.toNat_of_nonneg (by omega)⟩
  have hgrid : (2 : ℚ) ^ j = (2 : ℚ) ^ N * ulp x := by
    unfold ulp
    have : j = (N : ℤ) + (binaryExponent x - 52) := by omega
    conv_lhs => rw [this]
    rw [zpow_add₀ (by norm_num), zpow_natCast]
  have key1 : ∀ m : ℤ, (m : ℚ) * (2 : ℚ) ^ j ≤ x →
      (m : ℚ) * (2 : ℚ) ^ j ≤ (roundHalfEven (x / ulp x) : ℚ) * ulp x := by
    intro m hm
    rw [hgrid, ← mul_assoc] at hm ⊢
    have h1 : ((m * 2 ^ N : ℤ) : ℚ) ≤ x / ulp x := by
      rw [le_div_iff₀ hu]
      push_cast
      exact hm
    have h2 := le_roundHalfEven h1
    have h3 : ((m * 2 ^ N : ℤ) : ℚ) ≤ (roundHalfEven (x / ulp x) : ℚ) := by exact_mod_cast h2
    push_cast at h3
    exact mul_le_mul_of_nonneg_right h3 hu.le
  have key2 : ∀ m : ℤ, x ≤ (m : ℚ) * (2 : ℚ) ^ j →
      (roundHalfEven (x / ulp x) : ℚ) * ulp x ≤ (m : ℚ) * (2 : ℚ) ^ j := by
    intro m hm
    rw [hgrid, ← mul_assoc] at hm ⊢
    have h1 : x / ulp x ≤ ((m * 2 ^ N : ℤ) : ℚ) := by
      rw [div_le_iff₀ hu]
      push_cast
      exact hm
    have h2 := roundHalfEven_le h1
    have h3 : (roundHalfEven (x / ulp x) : ℚ) ≤ ((m * 2 ^ N : ℤ) : ℚ) := by exact_mod_cast h2
    push_cast at h3
    exact mul_le_mul_of_nonneg_right h3 hu.le
  have hpow : (2 : ℚ) ^ (j + 53) = ((2 ^ 53 : ℤ) : ℚ) * (2 : ℚ) ^ j := by
    rw [zpow_add₀ (by norm_num)]
    push_cast
    rw [mul_comm]
    norm_num
  have hb := abs_lt.mp hx
  have hlo : -(2 : ℚ) ^ (j + 53) ≤ (roundHalfEven (x / ulp x) : ℚ) * ulp x := by
    have := key1 (-(2 ^ 53)) (by
      push_cast
      rw [hpow] at hb
      push_cast at hb
      linarith [hb.1])
    rw [hpow]
    push_cast at this ⊢
    linarith
  have hhi : (roundHalfEven (x / ulp x) : ℚ) * ulp x ≤ (2 : ℚ) ^ (j + 53) := by
    have := key2 (2 ^ 53) (by
      push_cast
      rw [hpow] at hb
      push_cast at hb
      linarith [hb.2])
    rw [hpow]
    push_cast at this ⊢
    linarith
  have hlt : (2 : ℚ) ^ (j + 53) < (2 : ℚ) ^ (1024 : ℤ) :=
    zpow_lt_zpow_right₀ (by norm_num) (by omega)
  refine ⟨(roundHalfEven (x / ulp x) : ℚ) * ulp x, ?_, key1, key2⟩
  unfold roundToDouble
  dsimp only
  rw [if_neg]
  rw [not_le]
  exact lt_of_le_of_lt (abs_le.mpr ⟨hlo, hhi⟩) hlt

/-- A value on a grid of spacing 2 ^ j on which the binary64 numbers of its magnitude lie is
a binary64 number: rounding leaves it as it is. -/
theorem roundToDouble_exact (k j : ℤ) (hj : -1074 ≤ j) (hj2 : j + 53 < 1024)
    (hk : |(k : ℚ) * (2 : ℚ) ^ j| < (2 : ℚ) ^ (j + 53)) :
    roundToDouble ((k : ℚ) * (2 : ℚ) ^ j) = JSNum.fin ((k : ℚ) * (2 : ℚ) ^ j) := by
  obtain ⟨r, hr, h1, h2⟩ := roundToDouble_bracket _ j hj hj2 hk
  rw [hr]
  congr 1
  exact le_antisymm (h2 k le_rfl) (h1 k le_rfl)

/-- Whole numbers below 2 ^ 53 in magnitude are binary64 numbers. -/
theorem roundToDouble_intCast (n : ℤ) (hn : |(n : ℚ)| < 9007199254740992) :
    roundToDouble (n : ℚ) = JSNum.fin (n : ℚ) := by
  have := roundToDouble_exact n 0 (by norm_num) (by norm_num) (by
    rw [zpow_zero, mul_one]
    norm_num
    exact hn)
  simpa using this

/-- Rounding a value below 2 ^ 53 in magnitude to binary64 keeps it between the whole
numbers next to it. -/
theorem roundToDouble_floor_ceil (x : ℚ) (hx : |x| < 9007199254740992) :
    ∃ r : ℚ, roundToDouble x = JSNum.fin r ∧ (⌊x⌋ : ℚ) ≤ r ∧ r ≤ (⌈x⌉ : ℚ) ∧
      (∀ n : ℤ, (n : ℚ) ≤ x → (n : ℚ) ≤ r) ∧ (∀ n : ℤ, x ≤ (n : ℚ) → r ≤ (n : ℚ)) := by
  obtain ⟨r, hr, h1, h2⟩ := roundToDouble_bracket x 0 (by norm_num) (by norm_num) (by
    norm_num
    exact hx)
  simp only [zpow_zero, mul_one] at h1 h2
  exact ⟨r, hr, h1 _ (Int.floor_le x), h2 _ (Int.le_ceil x), h1, h2⟩

theorem JSNum.truncQ_le {t : ℤ} {q : ℚ} (h : q ≤ (t : ℚ)) : JSNum.truncQ q ≤ t := by
  unfold JSNum.truncQ
  split
  · exact le_trans (Int.floor_le_ceil q) (Int.ceil_le.mpr h)
  · exact Int.ceil_le.mpr h

theorem roundHalfEven_of_lt_half {x : ℚ} {n : ℤ} (h1 : (n : ℚ) ≤ x) (h2 : x < (n : ℚ) + 1 / 2) :
    roundHalfEven x = n := by
  have hf : ⌊x⌋ = n := by
    rw [Int.floor_eq_iff]
    exact ⟨h1, by linarith⟩
  unfold roundHalfEven
  dsimp only
  rw [hf, if_pos (by linarith)]

theorem roundHalfEven_of_gt_half {x : ℚ} {n : ℤ} (h1 : (n : ℚ) + 1 / 2 < x)
    (h2 : x < (n : ℚ) + 1) : roundHalfEven x = n + 1 := by
  have hf : ⌊x⌋ = n := by
    rw [Int.floor_eq_iff]
    exact ⟨by linarith, h2⟩
  unfold roundHalfEven
  dsimp only
  rw [hf, if_neg (by linarith), if_pos (by linarith)]

theorem JSNum.signedInf_ne_fin (b : Bool) (r : ℚ) : JSNum.signedInf b ≠ JSNum.fin r := by
  cases b <;> simp [JSNum.signedInf]

/-- Rounding to binary64 inside a known binade: the significand is rounded to a whole
multiple of the spacing 2 ^ (e - 52). -/
theorem roundToDouble_of_binade {q : ℚ} {e : ℤ} (h1 : (2 : ℚ) ^ e ≤ |q|)
    (h2 : |q| < (2 : ℚ) ^ (e + 1)) (he : -1022 ≤ e) (he2 : e < 1023) :
    roundToDouble q
      = JSNum.fin ((roundHalfEven (q / (2 : ℚ) ^ (e - 52)) : ℚ) * (2 : ℚ) ^ (e - 52)) := by
  have hb := binaryExponent_eq h1 h2 he
  obtain ⟨r, hr, -, -⟩ := roundToDouble_bracket q (e - 52) (by omega) (by omega)
    (by
      have : e - 52 + 53 = e + 1 := by ring
      rw [this]
      exact h2)
  unfold roundToDouble at hr ⊢
  simp only [ulp, hb] at hr ⊢
  split at hr
  · exact absurd hr (JSNum.signedInf_ne_fin _ _)
  · rename_i hno
    rw [if_neg hno]

theorem roundToDouble_half : roundToDouble (1 / 2) = JSNum.fin (1 / 2) := by
  have := roundToDouble_exact 1 (-1) (by norm_num) (by norm_num) (by
    rw [abs_of_pos (by positivity)]
    norm_num [zpow_neg])
  norm_num [zpow_neg] at this
  exact this

theorem JSNum.toDouble_fin (q : ℚ) : (JSNum.fin q).toDouble = roundToDouble q := rfl

theorem abs_roundHalfEven_sub_le (z : ℚ) : |(roundHalfEven z : ℚ) - z| ≤ 1 / 2 := by
  have h1 := Int.floor_le z
  have h2 := Int.lt_floor_add_one z
  unfold roundHalfEven
  dsimp only
  split
  · rw [abs_le]
    constructor <;> linarith
  · split
    · rw [abs_le]
      push_cast
      constructor <;> linarith
    · split
      · rw [abs_le]
        constructor <;> linarith
      · rw [abs_le]
        push_cast
        constructor <;> linarith

/-- Rounding to binary64 inside a known binade gives a whole multiple of the spacing
2 ^ (e - 52), at most half a spacing away. -/
theorem roundToDouble_of_binade_spec {q : ℚ} {e : ℤ} (h1 : (2 : ℚ) ^ e ≤ |q|)
    (h2 : |q| < (2 : ℚ) ^ (e + 1)) (he : -1022 ≤ e) (he2 : e < 1023) :
    ∃ K : ℤ, roundToDouble q = JSNum.fin ((K : ℚ) * (2 : ℚ) ^ (e - 52)) ∧
      |(K : ℚ) * (2 : ℚ) ^ (e - 52) - q| ≤ (2 : ℚ) ^ (e - 53) := by
  refine ⟨roundHalfEven (q / (2 : ℚ) ^ (e - 52)), roundToDouble_of_binade h1 h2 he he2, ?_⟩
  have hu : (0 : ℚ) < (2 : ℚ) ^ (e - 52) := by positivity
  have herr := abs_roundHalfEven_sub_le (q / (2 : ℚ) ^ (e - 52))
  have hfac : (roundHalfEven (q / (2 : ℚ) ^ (e - 52)) : ℚ) * (2 : ℚ) ^ (e - 52) - q
      = ((roundHalfEven (q / (2 : ℚ) ^ (e - 52)) : ℚ) - q / (2 : ℚ) ^ (e - 52))
        * (2 : ℚ) ^ (e - 52) := by
    field_simp
  have hhalf : (2 : ℚ) ^ (e - 53) = 1 / 2 * (2 : ℚ) ^ (e - 52) := by
    have : e - 52 = (e - 53) + 1 := by ring
    rw [this, zpow_add₀ (by norm_num), zpow_one]
    ring
  rw [hfac, abs_mul, abs_of_pos hu, hhalf]
  exact mul_le_mul_of_nonneg_right herr hu.le

/-- Rounding a value between 256 and 1024 to binary64 gives a whole multiple of 2 ^ -44 at
most 2 ^ -44 away. -/
theorem roundToDouble_near_longitude (y : ℚ) (h1 : 256 ≤ y) (h2 : y < 1024) :
    ∃ K : ℤ, roundToDouble y = JSNum.fin ((K : ℚ) / 2 ^ 44) ∧
      |(K : ℚ) / 2 ^ 44 - y| ≤ 1 / 2 ^ 44 := by
  have hy : |y| = y := abs_of_pos (by linarith)
  by_cases h : y < 512
  · obtain ⟨K, hK, herr⟩ := @roundToDouble_of_binade_spec y 8
      (by rw [hy]; norm_num; exact h1) (by rw [hy]; norm_num; exact h) (by norm_num)
      (by norm_num)
    refine ⟨K, ?_, ?_⟩
    · rw [hK]
      congr 1
      norm_num [zpow_neg]
      ring
    · have e1 : (K : ℚ) * (2 : ℚ) ^ ((8 : ℤ) - 52) = (K : ℚ) / 2 ^ 44 := by
        norm_num [zpow_neg]
        ring
      rw [e1] at herr
      refine le_trans herr ?_
      norm_num [zpow_neg]
  · obtain ⟨K, hK, herr⟩ := @roundToDouble_of_binade_spec y 9
      (by rw [hy]; norm_num; linarith) (by rw [hy]; norm_num; exact h2) (by norm_num)
      (by norm_num)
    have e1 : (K : ℚ) * (2 : ℚ) ^ ((9 : ℤ) - 52) = ((2 * K : ℤ) : ℚ) / 2 ^ 44 := by
      norm_num [zpow_neg]
      ring
    refine ⟨2 * K, ?_, ?_⟩
    · rw [hK, e1]
    · rw [e1] at herr
      refine le_trans herr ?_
      norm_num [zpow_neg]

/-! ## Longitude normalisation and the discontinuity test -/

/-- C5, counterexample: the longitude 180 is normalised to -180, which lies outside the
half-open interval (-180, 180]; and the value -1000, below -540, is normalised to -280,
because the remainder takes the sign of the dividend. -/
theorem normalizeLongitude_180_outside :
    normalizeLongitude 180 = JSNum.fin (-180) ∧
      ¬ (JSNum.lt (JSNum.fin (-180)) (normalizeLongitude 180) = true ∧
          JSNum.le (normalizeLongitude 180) 180 = true) ∧
      normalizeLongitude (JSNum.fin (-1000)) = JSNum.fin (-280) := by
  have h : normalizeLongitude 180 = JSNum.fin (-180) := by
    rw [JSNum.ofNat_eq 180, normalizeLongitude_fin]
    norm_num [JSNum.truncQ]
  refine ⟨h, ?_, ?_⟩
  · rw [h]
    simp [JSNum.lt]
  · rw [normalizeLongitude_fin]
    have hc : ⌈-((23 : ℚ) / 18)⌉ = -1 := by
      rw [Int.ceil_eq_iff]
      norm_num
    norm_num [JSNum.truncQ, hc]

/-- C5, amended: for every finite longitude x of at least -540 degrees (so for every
longitude between -180 and 180), `(x + 540) % 360 - 180` is a finite value in the half-open
interval [-180, 180). -/
theorem normalizeLongitude_range (x : ℚ) (hx : -540 ≤ x) :
    ∃ r : ℚ, normalizeLongitude (JSNum.fin x) = JSNum.fin r ∧ -180 ≤ r ∧ r < 180 := by
  have h0 : (0 : ℚ) ≤ (x + 540) / 360 := by
    apply div_nonneg <;> linarith
  have hfl : ((⌊(x + 540) / 360⌋ : ℤ) : ℚ) ≤ (x + 540) / 360 := Int.floor_le _
  have hlt : (x + 540) / 360 < ((⌊(x + 540) / 360⌋ : ℤ) : ℚ) + 1 := Int.lt_floor_add_one _
  refine ⟨_, normalizeLongitude_fin x, ?_, ?_⟩
  · rw [JSNum.truncQ_of_nonneg h0]
    have := (le_div_iff₀ (by norm_num : (0 : ℚ) < 360)).mp hfl
    linarith
  · rw [JSNum.truncQ_of_nonneg h0]
    have := (div_lt_iff₀ (by norm_num : (0 : ℚ) < 360)).mp hlt
    linarith

/-- Witness of `normalizeLongitude_range` at the longitude 180. -/
theorem normalizeLongitude_range_witness :
    (-540 : ℚ) ≤ 180 ∧
      ∃ r : ℚ, normalizeLongitude (JSNum.fin 180) = JSNum.fin r ∧ -180 ≤ r ∧ r < 180 :=
  ⟨by norm_num, normalizeLongitude_range 180 (by norm_num)⟩

/-- C6: the discontinuity test reports a jump from longitude 179 to longitude -179 and none
from longitude 10 to longitude 15. -/
theorem longitudeJump_examples :
    longitudeJump 179 (JSNum.fin (-179)) = true ∧ longitudeJump 10 15 = false := by
  simp only [longitudeJump, JSNum.ofNat_eq, normalizeLongitude_fin, JSNum.fin_sub_fin,
    JSNum.abs, JSNum.gt, JSNum.lt]
  norm_num [JSNum.truncQ]

/-! ## The simulation clock -/

theorem JSDate.getTime_some {d : JSDate} {t : ℤ} (h : d.timeValue = some t) :
    d.getTime = JSNum.fin t := by
  simp [JSDate.getTime, h]

/-- The advanced time of a valid date, when the sum stays within the range of `Date`. -/
theorem advanceSimulationTime_fin {prev : JSDate} {t : ℤ} (d m : ℚ)
    (ht : prev.timeValue = some t) (hr : |(t : ℚ) + d * m| ≤ maxTimeValue) :
    (advanceSimulationTime (JSNum.fin d) (JSNum.fin m) prev).timeValue
      = some (JSNum.truncQ ((t : ℚ) + d * m)) := by
  simp [advanceSimulationTime, newDate, JSDate.getTime_some ht, JSNum.fin_mul_fin,
    JSNum.fin_add_fin, timeClip, not_lt.mpr hr]

/-- A running tick with a non-negative advance never moves a valid time backwards. -/
theorem advanceSimulationTime_notRegressed (prev : JSDate) (d m : ℚ) (h : 0 ≤ d * m) :
    notRegressed prev (advanceSimulationTime (JSNum.fin d) (JSNum.fin m) prev) = true := by
  cases hp : prev.timeValue with
  | none =>
    simp [notRegressed, hp, advanceSimulationTime, newDate, JSDate.getTime, timeClip,
      JSNum.fin_mul_fin]
    rfl
  | some t =>
    by_cases hr : |(t : ℚ) + d * m| ≤ maxTimeValue
    · rw [notRegressed, hp, advanceSimulationTime_fin d m hp hr]
      simp only [decide_eq_true_eq]
      exact JSNum.le_truncQ (by linarith)
    · have : (advanceSimulationTime (JSNum.fin d) (JSNum.fin m) prev).timeValue = none := by
        simp [advanceSimulationTime, newDate, JSDate.getTime_some hp, JSNum.fin_mul_fin,
          JSNum.fin_add_fin, timeClip, not_le.mp hr]
      simp [notRegressed, hp, this]

theorem notRegressed_refl (a : JSDate) : notRegressed a a = true := by
  unfold notRegressed
  cases a.timeValue <;> simp

/-- One admissible tick does not move the simulation time backwards. -/
theorem animateClock_notRegressed (s : ClockState) (tk : ClockTick)
    (h : admissibleTick s tk = true) :
    notRegressed s.simulationTime (animateClock s tk).simulationTime = true := by
  unfold admissibleTick at h
  simp only [Bool.and_eq_true] at h
  obtain ⟨hd, hm⟩ := h
  cases hp : tk.isPaused with
  | true => simp [animateClock, hp, notRegressed_refl]
  | false =>
    cases hdel : frameDelta s tk with
    | fin d =>
      cases hmul : tk.timeMultiplier with
      | fin m =>
        rw [hdel] at hd
        rw [hmul] at hm
        simp only [Bool.and_eq_true, decide_eq_true_eq] at hd hm
        have hdel2 : tk.timestamp - s.lastTimestamp = JSNum.fin d := hdel
        simp only [animateClock, hp, hdel2, hmul]
        exact advanceSimulationTime_notRegressed _ d m (mul_nonneg hd (by linarith [hm.1.2]))
      | posInf => simp [hmul] at hm
      | negInf => simp [hmul] at hm
      | nan => simp [hmul] at hm
    | posInf => simp [hdel] at hd
    | negInf => simp [hdel] at hd
    | nan => simp [hdel] at hd

/-- A running tick in binary64: from a valid time t, with a product d * m below 2 ^ 53 in
magnitude and a sum within the range of `Date`, the stored time is a whole number between
t + ⌊d * m⌋ and t + ⌈d * m⌉. -/
theorem advanceSimulationTime64_bracket {prev : JSDate} {t : ℤ} (d m : ℚ)
    (ht : prev.timeValue = some t) (hp : |d * m| < 9007199254740992)
    (hr : |(t : ℚ) + d * m| ≤ maxTimeValue) :
    ∃ t2 : ℤ, (advanceSimulationTime64 (JSNum.fin d) (JSNum.fin m) prev).timeValue = some t2 ∧
      t + ⌊d * m⌋ ≤ t2 ∧ t2 ≤ t + ⌈d * m⌉ := by
  obtain ⟨p, hpd, hp1, hp2, -, -⟩ := roundToDouble_floor_ceil (d * m) hp
  have hr0 : |(t : ℚ) + d * m| ≤ 8640000000000000 := by simpa [maxTimeValue] using hr
  obtain ⟨hr1, hr2⟩ := abs_le.mp hr0
  have hlo : ((-8640000000000000 - t : ℤ) : ℚ) ≤ d * m := by push_cast; linarith
  have hhi : d * m ≤ ((8640000000000000 - t : ℤ) : ℚ) := by push_cast; linarith
  have hlo2 : -8640000000000000 - t ≤ ⌊d * m⌋ := Int.le_floor.mpr hlo
  have hhi2 : ⌈d * m⌉ ≤ 8640000000000000 - t := Int.ceil_le.mpr hhi
  have hlo3 : ((-8640000000000000 : ℤ) : ℚ) ≤ (t : ℚ) + p := by
    have : ((-8640000000000000 - t : ℤ) : ℚ) ≤ (⌊d * m⌋ : ℚ) := by exact_mod_cast hlo2
    push_cast at this ⊢
    linarith
  have hhi3 : (t : ℚ) + p ≤ ((8640000000000000 : ℤ) : ℚ) := by
    have : (⌈d * m⌉ : ℚ) ≤ ((8640000000000000 - t : ℤ) : ℚ) := by exact_mod_cast hhi2
    push_cast at this ⊢
    linarith
  have hsum : |(t : ℚ) + p| < 9007199254740992 := by
    rw [abs_lt]
    have h1 := hlo3
    have h2 := hhi3
    push_cast at h1 h2
    constructor <;> linarith
  obtain ⟨s, hsd, -, -, hs1, hs2⟩ := roundToDouble_floor_ceil ((t : ℚ) + p) hsum
  have hs3 : ((-8640000000000000 : ℤ) : ℚ) ≤ s := hs1 _ hlo3
  have hs4 : s ≤ ((8640000000000000 : ℤ) : ℚ) := hs2 _ hhi3
  have hs5 : ((t + ⌊d * m⌋ : ℤ) : ℚ) ≤ s := hs1 _ (by push_cast; linarith)
  have hs6 : s ≤ ((t + ⌈d * m⌉ : ℤ) : ℚ) := hs2 _ (by push_cast; linarith)
  have hclip : ¬ (maxTimeValue < |s|) := by
    rw [not_lt, abs_le]
    push_cast at hs3 hs4
    constructor <;> norm_num [maxTimeValue] <;> linarith
  refine ⟨JSNum.truncQ s, ?_, JSNum.le_truncQ hs5, JSNum.truncQ_le hs6⟩
  simp [advanceSimulationTime64, newDate, JSDate.getTime_some ht, JSNum.fin_mul_fin,
    JSNum.fin_add_fin, JSNum.toDouble, hpd, hsd, timeClip, hclip]

/-- C7, counterexample: with previous time 0 ms, delta 0.5 ms and multiplier 1 (all exact
in binary64), a running tick leaves the time at 0 ms, whereas previous time plus d * m is
0.5 ms. -/
theorem animateClock64_not_exact :
    frameDelta64 ⟨0, ⟨some 0⟩⟩ ⟨JSNum.fin (1 / 2), false, 1⟩ = JSNum.fin (1 / 2) ∧
      (animateClock64 ⟨0, ⟨some 0⟩⟩ ⟨JSNum.fin (1 / 2), false, 1⟩).simulationTime.getTime
        = JSNum.fin 0 ∧
      (JSDate.getTime ⟨some 0⟩) + JSNum.fin (1 / 2) * 1 = JSNum.fin (1 / 2) ∧
      (animateClock64 ⟨0, ⟨some 0⟩⟩ ⟨JSNum.fin (1 / 2), false, 1⟩).simulationTime.getTime
        ≠ (JSDate.getTime ⟨some 0⟩) + JSNum.fin (1 / 2) * 1 := by
  have hd : frameDelta64 ⟨0, ⟨some 0⟩⟩ ⟨JSNum.fin (1 / 2), false, 1⟩ = JSNum.fin (1 / 2) := by
    simp only [frameDelta64, JSNum.ofNat_eq, JSNum.fin_sub_fin, JSNum.toDouble_fin,
      Nat.cast_zero, sub_zero, roundToDouble_half]
  have h1 : (animateClock64 ⟨0, ⟨some 0⟩⟩ ⟨JSNum.fin (1 / 2), false, 1⟩).simulationTime.getTime
      = JSNum.fin 0 := by
    simp only [animateClock64, advanceSimulationTime64, newDate, JSDate.getTime,
      JSNum.ofNat_eq, JSNum.fin_sub_fin, JSNum.fin_mul_fin, JSNum.fin_add_fin,
      JSNum.toDouble_fin, Nat.cast_zero, Nat.cast_one, sub_zero, mul_one, zero_add,
      Int.cast_zero, roundToDouble_half, timeClip, maxTimeValue]
    have hr : ¬ ((8640000000000000 : ℚ) < |1 / 2|) := by
      rw [abs_of_pos (by norm_num)]
      norm_num
    norm_num [JSNum.truncQ, hr]
  have h2 : (JSDate.getTime ⟨some 0⟩) + JSNum.fin (1 / 2) * 1 = JSNum.fin (1 / 2) := by
    simp only [JSDate.getTime, JSNum.ofNat_eq, JSNum.fin_mul_fin, JSNum.fin_add_fin]
    norm_num
  refine ⟨hd, h1, h2, ?_⟩
  rw [h1, h2]
  simp

/-- C7, amended: a paused tick leaves the virtual time unchanged whatever the delta is.  A
running tick with delta d and multiplier m (the product below 2 ^ 53 in magnitude, the sum
within the range of `Date`) replaces a valid time t by a whole number of milliseconds less
than 1 ms away from t + d * m: the product and the sum are rounded to binary64 and
`new Date` drops the fraction.  The new time is t + d * m exactly whenever d * m is a whole
number of milliseconds. -/
theorem animateClock64_time (s : ClockState) (tk : ClockTick) :
    (tk.isPaused = true → (animateClock64 s tk).simulationTime = s.simulationTime) ∧
      (tk.isPaused = false → ∀ (t : ℤ) (d m : ℚ),
        s.simulationTime.timeValue = some t → frameDelta64 s tk = JSNum.fin d →
        tk.timeMultiplier = JSNum.fin m → |d * m| < 9007199254740992 →
        |(t : ℚ) + d * m| ≤ maxTimeValue →
        (∃ t2 : ℤ, (animateClock64 s tk).simulationTime.timeValue = some t2 ∧
          |(t2 : ℚ) - ((t : ℚ) + d * m)| < 1) ∧
          ∀ k : ℤ, d * m = k → (animateClock64 s tk).simulationTime.timeValue = some (t + k)) := by
  refine ⟨fun hp => by simp [animateClock64, hp], ?_⟩
  intro hp t d m ht hd hm hprod hr
  have hd2 : JSNum.toDouble (tk.timestamp - s.lastTimestamp) = JSNum.fin d := hd
  obtain ⟨t2, h2, hlo, hhi⟩ := advanceSimulationTime64_bracket d m ht hprod hr
  have key : (animateClock64 s tk).simulationTime.timeValue = some t2 := by
    simp only [animateClock64, hp, hd2, hm]
    exact h2
  have hloq : ((t + ⌊d * m⌋ : ℤ) : ℚ) ≤ (t2 : ℚ) := by exact_mod_cast hlo
  have hhiq : (t2 : ℚ) ≤ ((t + ⌈d * m⌉ : ℤ) : ℚ) := by exact_mod_cast hhi
  push_cast at hloq hhiq
  refine ⟨⟨t2, key, ?_⟩, fun k hk => ?_⟩
  · rw [abs_lt]
    constructor
    · linarith [Int.lt_floor_add_one (d * m)]
    · linarith [Int.ceil_lt_add_one (d * m)]
  · rw [key]
    rw [hk, Int.floor_intCast] at hlo
    rw [hk, Int.ceil_intCast] at hhi
    congr 1
    omega

/-- Witness of `animateClock64_time`: a paused tick, and a running tick of 16.5 ms at
multiplier 60 from time 0, which advances the clock by exactly 990 ms. -/
theorem animateClock64_time_witness :
    (animateClock64 ⟨0, ⟨some 0⟩⟩ ⟨JSNum.fin (33 / 2), true, 60⟩).simulationTime = ⟨some 0⟩ ∧
      (animateClock64 ⟨0, ⟨some 0⟩⟩ ⟨JSNum.fin (33 / 2), false, 60⟩).simulationTime.timeValue
        = some (0 + 990) :=
  ⟨(animateClock64_time ⟨0, ⟨some 0⟩⟩ ⟨JSNum.fin (33 / 2), true, 60⟩).1 rfl,
    ((animateClock64_time ⟨0, ⟨some 0⟩⟩ ⟨JSNum.fin (33 / 2), false, 60⟩).2 rfl 0 (33 / 2) 60 rfl
      (by
        have h := roundToDouble_exact 33 (-1) (by norm_num) (by norm_num) (by
          rw [abs_of_pos (by positivity)]
          norm_num [zpow_neg])
        norm_num [zpow_neg] at h
        simp only [frameDelta64, JSNum.ofNat_eq, JSNum.fin_sub_fin, JSNum.toDouble_fin,
          Nat.cast_zero, sub_zero]
        exact h)
      (by simp only [JSNum.ofNat_eq]; norm_num)
      (by norm_num [abs_lt])
      (by norm_num [maxTimeValue, abs_le])).2 990 (by norm_num)⟩

/-- C8: over every run of ticks, paused or running, whose wall-clock deltas are finite and
non-negative and whose rate multipliers are whole numbers from 1 to 3600, each simulation
time is not before the one of the preceding tick. -/
theorem clock_never_regresses (s : ClockState) (ticks : List ClockTick)
    (h : admissibleRun s ticks = true) :
    List.Chain (fun a b => notRegressed a b = true) s.simulationTime (clockTrace s ticks) := by
  induction ticks generalizing s with
  | nil => exact List.Chain.nil
  | cons tk rest ih =>
    simp only [admissibleRun, Bool.and_eq_true] at h
    exact List.Chain.cons (animateClock_notRegressed s tk h.1) (ih _ h.2)

/-- Witness of `clock_never_regresses`: a running tick, a paused tick and a running tick. -/
theorem clock_never_regresses_witness :
    List.Chain (fun a b => notRegressed a b = true) (⟨some 1000⟩ : JSDate)
      (clockTrace ⟨0, ⟨some 1000⟩⟩
        [⟨JSNum.fin (33 / 2), false, 60⟩, ⟨JSNum.fin 33, true, 60⟩,
          ⟨JSNum.fin (101 / 2), false, 3600⟩]) :=
  clock_never_regresses ⟨0, ⟨some 1000⟩⟩
    [⟨JSNum.fin (33 / 2), false, 60⟩, ⟨JSNum.fin 33, true, 60⟩,
      ⟨JSNum.fin (101 / 2), false, 3600⟩]
    (by
      simp only [admissibleRun, admissibleTick, animateClock, frameDelta, JSNum.ofNat_eq,
        JSNum.fin_sub_fin]
      norm_num)

/-- The handler run on the value the slider delivers: when `Number` reads the delivered
string as the sanitised value, `onChange` stores what `speedSliderInput` stores. -/
theorem speedSliderOnChange_eq_input (Number : String → JSNum) (value : String)
    (requested : ℚ) (c : TimeControls)
    (h : Number value
      = JSNum.fin (rangeInputSanitize speedSliderMin speedSliderMax requested)) :
    speedSliderOnChange Number value c = speedSliderInput requested c := by
  unfold speedSliderOnChange speedSliderInput
  rw [h]

theorem rangeInputSanitize_mem (value : ℚ) :
    1 ≤ rangeInputSanitize 1 3600 value ∧ rangeInputSanitize 1 3600 value ≤ 3600 := by
  unfold rangeInputSanitize
  rw [if_neg (by norm_num)]
  split
  · norm_num
  · split
    · norm_num
    · rename_i h1 h2
      have h1 : (1 : ℚ) ≤ value := not_lt.mp h1
      have h2 : value ≤ 3600 := not_lt.mp h2
      have hlo : (0 : ℤ) ≤ ⌊value - 1 + 1 / 2⌋ := Int.floor_nonneg.mpr (by linarith)
      have hhi : ⌊value - 1 + 1 / 2⌋ < (3600 : ℤ) := Int.floor_lt.mpr (by push_cast; linarith)
      have hlo2 : (0 : ℚ) ≤ (⌊value - 1 + 1 / 2⌋ : ℚ) := by exact_mod_cast hlo
      have hhi2 : (⌊value - 1 + 1 / 2⌋ : ℚ) ≤ 3599 := by
        have : ⌊value - 1 + 1 / 2⌋ ≤ (3599 : ℤ) := by omega
        exact_mod_cast this
      constructor <;> linarith

theorem timeControls_multiplier_mem (events : List TimeControlEvent) (c : TimeControls)
    (hc : ∃ v : ℚ, c.timeMultiplier = JSNum.fin v ∧ speedSliderMin ≤ v ∧ v ≤ speedSliderMax) :
    ∃ v : ℚ, (events.foldl applyTimeControlEvent c).timeMultiplier = JSNum.fin v ∧
      speedSliderMin ≤ v ∧ v ≤ speedSliderMax := by
  induction events generalizing c with
  | nil => exact hc
  | cons e rest ih =>
    apply ih
    cases e with
    | slider requested =>
      exact ⟨rangeInputSanitize speedSliderMin speedSliderMax requested, rfl,
        rangeInputSanitize_mem requested⟩
    | pauseClick => exact hc

/-- C9: a change of the speed slider stores a multiplier within 1..3600 whatever value was
asked for: a value below 1 is stored as 1 and a value above 3600 as 3600.  The initial
multiplier is 60, so after any sequence of slider changes and pause clicks the stored
multiplier is within 1..3600. -/
theorem speedSlider_clamps (requested : ℚ) (c : TimeControls) :
    (∃ v : ℚ, (speedSliderInput requested c).timeMultiplier = JSNum.fin v ∧
        speedSliderMin ≤ v ∧ v ≤ speedSliderMax) ∧
      (requested < 1 → (speedSliderInput requested c).timeMultiplier = JSNum.fin 1) ∧
      (3600 < requested → (speedSliderInput requested c).timeMultiplier = JSNum.fin 3600) ∧
      (∀ events : List TimeControlEvent, ∃ v : ℚ,
        (timeControlsAfter events).timeMultiplier = JSNum.fin v ∧
          speedSliderMin ≤ v ∧ v ≤ speedSliderMax) := by
  refine ⟨⟨rangeInputSanitize speedSliderMin speedSliderMax requested, rfl, ?_⟩, ?_, ?_, ?_⟩
  · exact rangeInputSanitize_mem requested
  · intro h
    simp [speedSliderInput, setTimeMultiplier, rangeInputSanitize, speedSliderMin,
      speedSliderMax, h]
  · intro h
    have h2 : ¬ requested < 1 := by linarith
    simp [speedSliderInput, setTimeMultiplier, rangeInputSanitize, speedSliderMin,
      speedSliderMax, h, h2]
  · intro events
    exact timeControls_multiplier_mem events initialTimeControls
      ⟨60, rfl, by norm_num [speedSliderMin], by norm_num [speedSliderMax]⟩

/-- Witness of `speedSlider_clamps`: a request for 5000 stores 3600 and a request for 0
stores 1. -/
theorem speedSlider_clamps_witness :
    (speedSliderInput 5000 initialTimeControls).timeMultiplier = JSNum.fin 3600 ∧
      (speedSliderInput 0 initialTimeControls).timeMultiplier = JSNum.fin 1 :=
  ⟨(speedSlider_clamps 5000 initialTimeControls).2.2.1 (by norm_num),
    (speedSlider_clamps 0 initialTimeControls).2.1 (by norm_num)⟩

/-! ## The per-object update -/

/-- The visibility logic as one Boolean expression. -/
theorem satelliteVisibility_eq {Satrec : Type} (normalize : Vector3 → Vector3)
    (fr : Frame Satrec) (type : String) (pos : Vector3) :
    satelliteVisibility normalize fr type pos =
      (filterEnabled fr.filters type &&
        (!fr.hideBehindEarth ||
          !JSNum.lt ((pos.sub fr.earthPosition).dot (fr.cameraPosition.sub fr.earthPosition)) 0) &&
        (!fr.hideNightSide ||
          !JSNum.lt ((pos.sub fr.earthPosition).dot (normalize fr.sunLightPosition)) 0)) := by
  unfold satelliteVisibility
  dsimp only
  cases filterEnabled fr.filters type <;> cases fr.hideBehindEarth <;>
    cases fr.hideNightSide <;>
    cases JSNum.lt ((pos.sub fr.earthPosition).dot (fr.cameraPosition.sub fr.earthPosition)) 0 <;>
    cases JSNum.lt ((pos.sub fr.earthPosition).dot (normalize fr.sunLightPosition)) 0 <;>
    simp

/-- With a computed position the library is loaded. -/
theorem satellite_isSome_of_position {Satrec : Type} {M : JSMath}
    {satellite : Option (SatelliteJs Satrec)} {satrec : Satrec} {date : JSDate}
    {pd : PositionData} (h : calculateSatellitePosition M satellite satrec date = some pd) :
    ∃ lib, satellite = some lib := by
  cases satellite with
  | none => simp [calculateSatellitePosition] at h
  | some lib => exact ⟨lib, rfl⟩

/-- The visible flag written by a tick for an object with a computed position. -/
theorem updateSatellite_meshVisible {Satrec : Type} (M : JSMath)
    (normalize : Vector3 → Vector3) (fr : Frame Satrec) (sat : Sat Satrec) (sh : Shared)
    (pd : PositionData)
    (hpos : calculateSatellitePosition M fr.satellite sat.satrec fr.simulationTime = some pd) :
    (updateSatellite M normalize fr sat sh).1.meshVisible
      = satelliteVisibility normalize fr sat.type pd.position := by
  obtain ⟨lib, hlib⟩ := satellite_isSome_of_position hpos
  unfold updateSatellite
  rw [hlib] at hpos ⊢
  simp only [hpos]
  split <;> rfl

/-- The path buffer written by a tick. -/
theorem updateSatellite_pathPoints {Satrec : Type} (M : JSMath)
    (normalize : Vector3 → Vector3) (fr : Frame Satrec) (sat : Sat Satrec) (sh : Shared) :
    (updateSatellite M normalize fr sat sh).1.pathPoints
      = match calculateSatellitePosition M fr.satellite sat.satrec fr.simulationTime with
        | some pd =>
          (appendHistoryPoint "orbit path" sat.name sat.pathPoints pd.position sh.console).1
        | none => sat.pathPoints := by
  unfold updateSatellite
  cases hlib : fr.satellite with
  | none => simp [calculateSatellitePosition]
  | some lib =>
    simp only []
    cases hpos : calculateSatellitePosition M (some lib) sat.satrec fr.simulationTime with
    | none => rfl
    | some pd =>
      simp only []
      split <;> rfl

/-- The ground-track buffer written by a tick for an object with a computed position. -/
theorem updateSatellite_groundTrackPoints {Satrec : Type} (M : JSMath)
    (normalize : Vector3 → Vector3) (fr : Frame Satrec) (sat : Sat Satrec) (sh : Shared)
    (lib : SatelliteJs Satrec) (pd : PositionData) (hlib : fr.satellite = some lib)
    (hpos : calculateSatellitePosition M fr.satellite sat.satrec fr.simulationTime = some pd) :
    (updateSatellite M normalize fr sat sh).1.groundTrackPoints
      = if isSelected fr.selectedSatellite sat.name then
          (appendHistoryPoint "ground track" sat.name
            (if groundTrackDiscontinuity lib fr sat pd then [] else sat.groundTrackPoints)
            (groundPoint M pd)
            (appendHistoryPoint "orbit path" sat.name sat.pathPoints pd.position
              sh.console).2).1
        else [] := by
  unfold updateSatellite
  rw [hlib] at hpos ⊢
  simp only [hpos]
  split <;> rfl

/-- Without a computed position a tick leaves both buffers as they were. -/
theorem updateSatellite_buffers_of_none {Satrec : Type} (M : JSMath)
    (normalize : Vector3 → Vector3) (fr : Frame Satrec) (sat : Sat Satrec) (sh : Shared)
    (hpos : calculateSatellitePosition M fr.satellite sat.satrec fr.simulationTime = none) :
    (updateSatellite M normalize fr sat sh).1.pathPoints = sat.pathPoints ∧
      (updateSatellite M normalize fr sat sh).1.groundTrackPoints = sat.groundTrackPoints := by
  unfold updateSatellite
  cases hlib : fr.satellite with
  | none => simp
  | some lib =>
    rw [hlib] at hpos
    simp [hpos]

theorem pushBounded_length_le (buf : List Vector3) (p : Vector3)
    (h : buf.length ≤ maxHistoryPoints) : (pushBounded buf p).length ≤ maxHistoryPoints := by
  unfold pushBounded
  simp only []
  split
  · simp
    exact h
  · rename_i hgt
    exact not_lt.mp hgt

theorem appendHistoryPoint_length_le (what name : String) (buf : List Vector3) (p : Vector3)
    (console : List Warning) (h : buf.length ≤ maxHistoryPoints) :
    (appendHistoryPoint what name buf p console).1.length ≤ maxHistoryPoints := by
  unfold appendHistoryPoint
  split
  · exact pushBounded_length_le buf p h
  · exact h

theorem updateSatellite_bounded {Satrec : Type} (M : JSMath) (normalize : Vector3 → Vector3)
    (fr : Frame Satrec) (sat : Sat Satrec) (sh : Shared) (h : sat.bounded) :
    (updateSatellite M normalize fr sat sh).1.bounded := by
  unfold Sat.bounded at *
  cases hpos : calculateSatellitePosition M fr.satellite sat.satrec fr.simulationTime with
  | none =>
    obtain ⟨h1, h2⟩ := updateSatellite_buffers_of_none M normalize fr sat sh hpos
    rw [h1, h2]
    exact h
  | some pd =>
    obtain ⟨lib, hlib⟩ := satellite_isSome_of_position hpos
    rw [updateSatellite_pathPoints, hpos,
      updateSatellite_groundTrackPoints M normalize fr sat sh lib pd hlib hpos]
    refine ⟨appendHistoryPoint_length_le _ _ _ _ _ h.1, ?_⟩
    split
    · apply appendHistoryPoint_length_le
      split
      · simp
      · exact h.2
    · simp

theorem forEachSatellite_bounded {Satrec : Type} (M : JSMath) (normalize : Vector3 → Vector3)
    (fr : Frame Satrec) (sats : List (Sat Satrec)) (sh : Shared)
    (h : ∀ s ∈ sats, s.bounded) :
    ∀ s ∈ (forEachSatellite M normalize fr sats sh).1, s.bounded := by
  induction sats generalizing sh with
  | nil => simp [forEachSatellite]
  | cons sat rest ih =>
    intro s hs
    simp only [forEachSatellite, List.mem_cons] at hs
    rcases hs with rfl | hs
    · exact updateSatellite_bounded M normalize fr sat sh (h sat (List.mem_cons_self _ _))
    · exact ih _ (fun t ht => h t (List.mem_cons_of_mem _ ht)) s hs

theorem runFrames_bounded {Satrec : Type} (M : JSMath) (normalize : Vector3 → Vector3)
    (frames : List (Frame Satrec)) (st : List (Sat Satrec) × Shared)
    (h : ∀ s ∈ st.1, s.bounded) :
    ∀ s ∈ (runFrames M normalize frames st).1, s.bounded := by
  induction frames generalizing st with
  | nil => exact h
  | cons fr rest ih =>
    simp only [runFrames]
    exact ih _ (forEachSatellite_bounded M normalize fr st.1 st.2 h)

/-! ## The sample data evaluated -/

theorem JSNum.fin_div_fin (a b : ℚ) (hb : b ≠ 0) :
    JSNum.fin a / JSNum.fin b = JSNum.fin (a / b) := by
  show JSNum.div (JSNum.fin a) (JSNum.fin b) = _
  simp [JSNum.div, hb]

theorem JSNum.neg_fin (a : ℚ) : -JSNum.fin a = JSNum.fin (-a) := rfl

theorem longitudeJump_across_antimeridian :
    longitudeJump (JSNum.fin 179) (JSNum.fin (-179)) = true := by
  simp only [longitudeJump, normalizeLongitude_fin, JSNum.fin_sub_fin, JSNum.abs, JSNum.gt,
    JSNum.lt, JSNum.ofNat_eq]
  norm_num [JSNum.truncQ]

theorem sample_position :
    calculateSatellitePosition sampleMath sampleFrame.satellite sampleSat.satrec
      sampleFrame.simulationTime = some samplePositionData := by
  simp [calculateSatellitePosition, sampleFrame, sampleLib, sampleLibWithHeight, sampleSat,
    eciToGeodetic, JSNum.isNaN, JSDate.getTime, samplePositionData, JSNum.ofNat_eq]

theorem sample_discontinuity :
    groundTrackDiscontinuity sampleLib sampleFrame sampleSatTracked samplePositionData
      = true := by
  simp [groundTrackDiscontinuity, sampleFrame, sampleLib, sampleLibWithHeight, sampleSat,
    sampleSatTracked, JSNum.isNaN, JSDate.getTime, samplePositionData, JSNum.ofNat_eq, newDate,
    timeClip, JSNum.fin_sub_fin, JSNum.fin_mul_fin, maxTimeValue, JSNum.truncQ]
  norm_num [longitudeJump_across_antimeridian]

/-! ## Visibility -/

theorem JSNum.fin_add_posInf (a : ℚ) : JSNum.fin a + JSNum.posInf = JSNum.posInf := rfl

theorem JSNum.posInf_mul_fin {b : ℚ} (hb : 0 < b) :
    JSNum.posInf * JSNum.fin b = JSNum.posInf := by
  show JSNum.mul JSNum.posInf (JSNum.fin b) = _
  simp [JSNum.mul, JSNum.signedInf, hb, hb.ne']

theorem JSNum.posInf_mul_fin_neg {b : ℚ} (hb : b < 0) :
    JSNum.posInf * JSNum.fin b = JSNum.negInf := by
  show JSNum.mul JSNum.posInf (JSNum.fin b) = _
  simp [JSNum.mul, JSNum.signedInf, hb.ne, not_lt.mpr hb.le]

theorem JSNum.negInf_mul_fin {b : ℚ} (hb : 0 < b) :
    JSNum.negInf * JSNum.fin b = JSNum.negInf := by
  show JSNum.mul JSNum.negInf (JSNum.fin b) = _
  simp [JSNum.mul, JSNum.signedInf, hb.ne', not_lt.mpr hb.le]

theorem JSNum.neg_posInf : -JSNum.posInf = JSNum.negInf := rfl

/-- With an infinite geodetic height the guards of `calculateSatellitePosition` pass and the
sample has an infinite scene position. -/
theorem infinite_height_position :
    calculateSatellitePosition sampleMath infiniteHeightFrame.satellite sampleSat.satrec
      infiniteHeightFrame.simulationTime = some infiniteHeightPositionData := by
  simp [calculateSatellitePosition, infiniteHeightFrame, sampleFrame, sampleLibWithHeight,
    sampleSat, eciToGeodetic, JSNum.isNaN, JSDate.getTime, JSNum.ofNat_eq, sampleMath,
    JSNum.fin_mul_fin, JSNum.fin_add_fin, JSNum.fin_sub_fin, JSNum.fin_div_fin,
    infiniteHeightPositionData, samplePositionData, JSNum.fin_add_posInf]
  norm_num [JSNum.posInf_mul_fin, JSNum.posInf_mul_fin_neg, JSNum.negInf_mul_fin,
    JSNum.neg_posInf]

/-- The dot product of the occlusion test at the infinite position is NaN: the camera sits
on the z axis, so an infinite coordinate is multiplied by zero. -/
theorem infinite_height_dot :
    (infiniteHeightPositionData.position.sub infiniteHeightFrame.earthPosition).dot
      (infiniteHeightFrame.cameraPosition.sub infiniteHeightFrame.earthPosition)
      = JSNum.nan := by
  simp [infiniteHeightPositionData, infiniteHeightFrame, sampleFrame, Vector3.sub, Vector3.dot,
    JSNum.ofNat_eq, JSNum.fin_sub_fin]
  rfl

/-- C1, counterexample: in a tick with hide-behind-Earth on, an object whose computed
position is infinite (the geodetic height was infinite, which the NaN guards let through) is
assigned a true visible flag although dot(objectPos - earthPos, cameraPos - earthPos) >= 0
is false: the dot product is NaN, and the code hides an object only when the dot product
is < 0. -/
theorem visible_flag_true_with_nan_dot :
    calculateSatellitePosition sampleMath infiniteHeightFrame.satellite sampleSat.satrec
        infiniteHeightFrame.simulationTime = some infiniteHeightPositionData ∧
      (updateSatellite sampleMath sampleNormalize infiniteHeightFrame sampleSat
        ⟨none, []⟩).1.meshVisible = true ∧
      filterEnabled infiniteHeightFrame.filters sampleSat.type = true ∧
      infiniteHeightFrame.hideBehindEarth = true ∧
      JSNum.ge ((infiniteHeightPositionData.position.sub infiniteHeightFrame.earthPosition).dot
        (infiniteHeightFrame.cameraPosition.sub infiniteHeightFrame.earthPosition)) 0
        = false := by
  refine ⟨infinite_height_position, ?_, ?_, rfl, ?_⟩
  · rw [updateSatellite_meshVisible sampleMath sampleNormalize infiniteHeightFrame sampleSat
      ⟨none, []⟩ infiniteHeightPositionData infinite_height_position, satelliteVisibility_eq,
      infinite_height_dot]
    simp [infiniteHeightFrame, sampleFrame, sampleSat, filterEnabled, initialFilters, JSNum.lt]
  · simp [infiniteHeightFrame, sampleFrame, sampleSat, filterEnabled, initialFilters]
  · rw [infinite_height_dot]
    rfl

/-- C1, amended: for an object whose position was computed in the tick, the visible flag
written is true exactly when the object's category is enabled in the filter map, and, if
hide-behind-Earth is on, dot(objectPos - earthPos, cameraPos - earthPos) is not below 0,
and, if hide-night-side is on, dot(objectPos - earthPos, sunDirection) is not below 0.  A
dot product that is NaN is not below 0, so it does not hide the object. -/
theorem visible_flag_iff_not_negative {Satrec : Type} (M : JSMath)
    (normalize : Vector3 → Vector3) (fr : Frame Satrec) (sat : Sat Satrec) (sh : Shared)
    (pd : PositionData)
    (hpos : calculateSatellitePosition M fr.satellite sat.satrec fr.simulationTime = some pd) :
    (updateSatellite M normalize fr sat sh).1.meshVisible = true ↔
      (filterEnabled fr.filters sat.type = true ∧
        (fr.hideBehindEarth = true →
          JSNum.lt ((pd.position.sub fr.earthPosition).dot
            (fr.cameraPosition.sub fr.earthPosition)) 0 = false) ∧
        (fr.hideNightSide = true →
          JSNum.lt ((pd.position.sub fr.earthPosition).dot
            (normalize fr.sunLightPosition)) 0 = false)) := by
  rw [updateSatellite_meshVisible M normalize fr sat sh pd hpos, satelliteVisibility_eq]
  cases filterEnabled fr.filters sat.type <;> cases fr.hideBehindEarth <;>
    cases fr.hideNightSide <;> simp

/-- Witness of `visible_flag_iff_not_negative` at the sample frame and object. -/
theorem visible_flag_iff_not_negative_witness :
    (updateSatellite sampleMath sampleNormalize sampleFrame sampleSat ⟨none, []⟩).1.meshVisible
        = true ↔
      (filterEnabled sampleFrame.filters sampleSat.type = true ∧
        (sampleFrame.hideBehindEarth = true →
          JSNum.lt ((samplePositionData.position.sub sampleFrame.earthPosition).dot
            (sampleFrame.cameraPosition.sub sampleFrame.earthPosition)) 0 = false) ∧
        (sampleFrame.hideNightSide = true →
          JSNum.lt ((samplePositionData.position.sub sampleFrame.earthPosition).dot
            (sampleNormalize sampleFrame.sunLightPosition)) 0 = false)) :=
  visible_flag_iff_not_negative sampleMath sampleNormalize sampleFrame sampleSat ⟨none, []⟩
    samplePositionData sample_position

/-! ## History buffers -/

/-- C2: after any number of ticks, starting from empty buffers, the path buffer and the
ground-track buffer of every tracked object each hold at most 5000 points. -/
theorem history_bounded {Satrec : Type} (M : JSMath) (normalize : Vector3 → Vector3)
    (frames : List (Frame Satrec)) (sats : List (Sat Satrec)) (sh : Shared)
    (hempty : ∀ s ∈ sats, s.pathPoints = [] ∧ s.groundTrackPoints = []) :
    ∀ s ∈ (runFrames M normalize frames (sats, sh)).1,
      s.pathPoints.length ≤ 5000 ∧ s.groundTrackPoints.length ≤ 5000 := by
  apply runFrames_bounded M normalize frames (sats, sh)
  intro s hs
  obtain ⟨h1, h2⟩ := hempty s hs
  simp [Sat.bounded, h1, h2]

/-- Witness of `history_bounded`: two ticks over a one-object catalogue. -/
theorem history_bounded_witness :
    ((runFrames sampleMath sampleNormalize [sampleFrame, sampleFrame]
        ([sampleSat], ⟨none, []⟩)).1.all
      (fun s => decide (s.pathPoints.length ≤ 5000 ∧ s.groundTrackPoints.length ≤ 5000)))
      = true :=
  List.all_eq_true.mpr (fun s hs => decide_eq_true
    (history_bounded sampleMath sampleNormalize [sampleFrame, sampleFrame] [sampleSat]
      ⟨none, []⟩ (by simp [sampleSat]) s hs))

/-- C3: appending a point with no NaN component to a history buffer holding exactly 5000
points gives the old buffer without its first element, in the same order, followed by the
point; appending it to a buffer holding fewer than 5000 points gives the old buffer followed
by the point. -/
theorem appendHistoryPoint_fifo (what name : String) (buf : List Vector3) (p : Vector3)
    (console : List Warning) (hp : noNaNComponent p = true) :
    (buf.length = 5000 →
        (appendHistoryPoint what name buf p console).1 = buf.tail ++ [p]) ∧
      (buf.length < 5000 → (appendHistoryPoint what name buf p console).1 = buf ++ [p]) := by
  unfold appendHistoryPoint pushBounded maxHistoryPoints
  simp only [hp, if_true, List.length_append, List.length_singleton]
  constructor
  · intro h
    rw [if_pos (by omega)]
    cases buf with
    | nil => simp at h
    | cons a rest => rfl
  · intro h
    rw [if_neg (by omega)]

/-- Witness of `appendHistoryPoint_fifo`: a full buffer of 5000 points and an empty one. -/
theorem appendHistoryPoint_fifo_witness :
    (appendHistoryPoint "orbit path" "ISS (ZARYA)" (List.replicate 5000 ⟨0, 0, 0⟩) ⟨1, 2, 3⟩
        []).1 = (List.replicate 5000 (⟨0, 0, 0⟩ : Vector3)).tail ++ [⟨1, 2, 3⟩] ∧
      (appendHistoryPoint "ground track" "ISS (ZARYA)" [] ⟨1, 2, 3⟩ []).1
        = [] ++ [⟨1, 2, 3⟩] :=
  ⟨(appendHistoryPoint_fifo "orbit path" "ISS (ZARYA)" (List.replicate 5000 ⟨0, 0, 0⟩)
      ⟨1, 2, 3⟩ [] (by simp [noNaNComponent, JSNum.isNaN, JSNum.ofNat_eq])).1
      (List.length_replicate _ _),
    (appendHistoryPoint_fifo "ground track" "ISS (ZARYA)" [] ⟨1, 2, 3⟩ []
      (by simp [noNaNComponent, JSNum.isNaN, JSNum.ofNat_eq])).2 (by simp)⟩

/-- C4: when a tick detects a longitude discontinuity for the selected object, the
ground-track buffer is emptied before the new point is appended: after the tick it holds at
most one point, and every point it holds is the ground point computed in this tick (nothing
is carried over from the buffer as it was before the tick). -/
theorem groundTrack_restarts_on_discontinuity {Satrec : Type} (M : JSMath)
    (normalize : Vector3 → Vector3) (fr : Frame Satrec) (sat : Sat Satrec) (sh : Shared)
    (lib : SatelliteJs Satrec) (pd : PositionData) (hlib : fr.satellite = some lib)
    (hpos : calculateSatellitePosition M fr.satellite sat.satrec fr.simulationTime = some pd)
    (hsel : isSelected fr.selectedSatellite sat.name = true)
    (hdisc : groundTrackDiscontinuity lib fr sat pd = true) :
    (updateSatellite M normalize fr sat sh).1.groundTrackPoints.length ≤ 1 ∧
      (∀ q ∈ (updateSatellite M normalize fr sat sh).1.groundTrackPoints,
        q = groundPoint M pd) ∧
      (updateSatellite M normalize fr sat sh).1.groundTrackPoints
        = if noNaNComponent (groundPoint M pd) then [groundPoint M pd] else [] := by
  have key : (updateSatellite M normalize fr sat sh).1.groundTrackPoints
      = if noNaNComponent (groundPoint M pd) then [groundPoint M pd] else [] := by
    rw [updateSatellite_groundTrackPoints M normalize fr sat sh lib pd hlib hpos]
    simp only [hsel, hdisc, if_true]
    unfold appendHistoryPoint pushBounded maxHistoryPoints
    split <;> simp
  rw [key]
  split <;> simp

/-- Witness of `groundTrack_restarts_on_discontinuity`: the selected object, with one point
on its ground track, passes from longitude 179 to longitude -179. -/
theorem groundTrack_restarts_on_discontinuity_witness :
    (updateSatellite sampleMath sampleNormalize sampleFrame sampleSatTracked
        ⟨none, []⟩).1.groundTrackPoints.length ≤ 1 :=
  (groundTrack_restarts_on_discontinuity sampleMath sampleNormalize sampleFrame
    sampleSatTracked ⟨none, []⟩ sampleLib samplePositionData rfl sample_position
    (by simp [isSelected, sampleFrame, sampleSatTracked, sampleSat])
    sample_discontinuity).1

/-! ## The guards of `calculateSatellitePosition` -/

/-- C10, counterexample: when the geodetic conversion gives an infinite height (with finite
latitude and longitude), `calculateSatellitePosition` returns a sample, not null; its
altitude is infinite while its latitude, longitude and velocity are finite. -/
theorem calculateSatellitePosition_partly_finite :
    (calculateSatellitePosition sampleMath (some (sampleLibWithHeight JSNum.posInf)) ()
        ⟨some 1000⟩).map (fun pd => pd.altitude) = some JSNum.posInf ∧
      (calculateSatellitePosition sampleMath (some (sampleLibWithHeight JSNum.posInf)) ()
        ⟨some 1000⟩).map (fun pd => pd.altitude.isFinite) = some false ∧
      (calculateSatellitePosition sampleMath (some (sampleLibWithHeight JSNum.posInf)) ()
        ⟨some 1000⟩).map (fun pd => pd.latitude.isFinite) = some true ∧
      (calculateSatellitePosition sampleMath (some (sampleLibWithHeight JSNum.posInf)) ()
        ⟨some 1000⟩).map (fun pd => pd.longitude.isFinite) = some true ∧
      (calculateSatellitePosition sampleMath (some (sampleLibWithHeight JSNum.posInf)) ()
        ⟨some 1000⟩).map (fun pd => pd.velocity.isFinite) = some true := by
  simp [calculateSatellitePosition, sampleLibWithHeight, eciToGeodetic, JSNum.isNaN,
    JSDate.getTime, JSNum.ofNat_eq, JSNum.isFinite, sampleMath, JSNum.fin_mul_fin,
    JSNum.fin_add_fin]
  norm_num

/-- C10, amended: `calculateSatellitePosition` returns a sample exactly when the library is
loaded, the propagated inertial position is present with no NaN component, and the geodetic
conversion of it is present with no NaN latitude, longitude or height; in every other case
it returns null.  The altitude of a returned sample is that height, so it is not NaN.  Only
NaN is tested for: infinite values and the velocity are not checked. -/
theorem calculateSatellitePosition_guards {Satrec : Type} (M : JSMath)
    (satellite : Option (SatelliteJs Satrec)) (satrec : Satrec) (date : JSDate) :
    ((calculateSatellitePosition M satellite satrec date).isSome = true ↔
        ∃ lib e g, satellite = some lib ∧ (lib.propagate satrec date).position = some e ∧
          e.x.isNaN = false ∧ e.y.isNaN = false ∧ e.z.isNaN = false ∧
          lib.eciToGeodetic e (lib.gstime date) = some g ∧
          g.latitude.isNaN = false ∧ g.longitude.isNaN = false ∧ g.height.isNaN = false) ∧
      (∀ pd, calculateSatellitePosition M satellite satrec date = some pd →
        pd.altitude.isNaN = false ∧
          ∃ lib e g, satellite = some lib ∧ (lib.propagate satrec date).position = some e ∧
            lib.eciToGeodetic e (lib.gstime date) = some g ∧ pd.altitude = g.height ∧
            pd.latitude = lib.degreesLat g.latitude ∧
            pd.longitude = lib.degreesLong g.longitude) := by
  cases satellite with
  | none => simp [calculateSatellitePosition]
  | some lib =>
    cases hp : (lib.propagate satrec date).position with
    | none => simp [calculateSatellitePosition, hp]
    | some e =>
      cases hg : lib.eciToGeodetic e (lib.gstime date) with
      | none =>
        simp only [calculateSatellitePosition, hp, eciToGeodetic, hg]
        constructor
        · constructor
          · intro h
            split at h <;> simp at h
          · rintro ⟨lib2, e2, g2, h1, h2, -, -, -, h3, -⟩
            cases h1
            rw [hp] at h2
            cases h2
            rw [hg] at h3
            cases h3
        · intro pd h
          split at h <;> simp at h
      | some g =>
        simp only [calculateSatellitePosition, hp, eciToGeodetic, hg]
        by_cases hne : (e.x.isNaN || e.y.isNaN || e.z.isNaN) = true
        · simp only [hne, if_true]
          constructor
          · constructor
            · intro h
              simp at h
            · rintro ⟨lib2, e2, g2, h1, h2, hx, hy, hz, -⟩
              cases h1
              rw [hp] at h2
              cases h2
              simp [hx, hy, hz] at hne
          · intro pd h
            simp at h
        · simp only [hne]
          by_cases hng : (g.latitude.isNaN || g.longitude.isNaN || g.height.isNaN) = true
          · simp only [hng, if_true]
            constructor
            · constructor
              · intro h
                simp at h
              · rintro ⟨lib2, e2, g2, h1, h2, -, -, -, h3, hx, hy, hz⟩
                cases h1
                rw [hp] at h2
                cases h2
                rw [hg] at h3
                cases h3
                simp [hx, hy, hz] at hng
            · intro pd h
              simp at h
          · simp only [hng]
            simp only [Bool.or_eq_true, not_or, Bool.not_eq_true] at hne hng
            constructor
            · constructor
              · intro _
                exact ⟨lib, e, g, rfl, hp, hne.1.1, hne.1.2, hne.2, hg, hng.1.1, hng.1.2,
                  hng.2⟩
              · intro _
                simp
            · intro pd h
              simp only [Bool.false_eq_true, if_false, Option.some.injEq] at h
              subst h
              exact ⟨hng.2, lib, e, g, rfl, hp, hg, rfl, rfl, rfl⟩

/-- Witness of `calculateSatellitePosition_guards`: the sample returned for the stand-in
library has an altitude that is not NaN. -/
theorem calculateSatellitePosition_guards_witness :
    samplePositionData.altitude.isNaN = false :=
  ((calculateSatellitePosition_guards sampleMath sampleFrame.satellite sampleSat.satrec
    sampleFrame.simulationTime).2 samplePositionData sample_position).1

/-! ## Rejected points and failed computations -/

/-- C11, counterexample: a candidate point whose first coordinate is infinite is appended
to the buffer, and nothing is reported. -/
theorem appendHistoryPoint_keeps_infinite :
    appendHistoryPoint "orbit path" "ISS (ZARYA)" [] ⟨JSNum.posInf, 0, 0⟩ []
      = ([⟨JSNum.posInf, 0, 0⟩], []) := by
  simp [appendHistoryPoint, noNaNComponent, JSNum.isNaN, JSNum.ofNat_eq, pushBounded,
    maxHistoryPoints]

/-- C11, amended: a candidate path point or ground-track point with a NaN coordinate is not
appended: the buffer is left exactly as it was and one warning, whose message names the
object and which carries the point, is added to the console.  A point without a NaN
coordinate, finite or not, is pushed and nothing is reported. -/
theorem appendHistoryPoint_rejects_nan (what name : String) (buf : List Vector3)
    (p : Vector3) (console : List Warning) :
    ((p.x = JSNum.nan ∨ p.y = JSNum.nan ∨ p.z = JSNum.nan) →
        appendHistoryPoint what name buf p console
          = (buf, console ++
              [{ message := "Skipping " ++ what ++ " point for " ++ name ++
                   " due to NaN position:"
                 point := p }])) ∧
      ((p.x ≠ JSNum.nan ∧ p.y ≠ JSNum.nan ∧ p.z ≠ JSNum.nan) →
        appendHistoryPoint what name buf p console = (pushBounded buf p, console)) := by
  have hnan : ∀ a : JSNum, a.isNaN = true ↔ a = JSNum.nan := by
    intro a
    cases a <;> simp [JSNum.isNaN]
  constructor
  · intro h
    have hno : noNaNComponent p = false := by
      unfold noNaNComponent
      rcases h with h | h | h <;> simp [h, JSNum.isNaN]
    simp [appendHistoryPoint, hno]
  · rintro ⟨hx, hy, hz⟩
    have hok : noNaNComponent p = true := by
      unfold noNaNComponent
      have h1 : p.x.isNaN = false := by
        cases hc : p.x.isNaN
        · rfl
        · exact absurd ((hnan _).mp hc) hx
      have h2 : p.y.isNaN = false := by
        cases hc : p.y.isNaN
        · rfl
        · exact absurd ((hnan _).mp hc) hy
      have h3 : p.z.isNaN = false := by
        cases hc : p.z.isNaN
        · rfl
        · exact absurd ((hnan _).mp hc) hz
      simp [h1, h2, h3]
    simp [appendHistoryPoint, hok]

/-- Witness of `appendHistoryPoint_rejects_nan`: a point with a NaN coordinate is skipped
with a warning, a finite point is pushed. -/
theorem appendHistoryPoint_rejects_nan_witness :
    appendHistoryPoint "ground track" "NOAA 15" [⟨0, 0, 1⟩] ⟨JSNum.nan, 0, 0⟩ []
        = ([⟨0, 0, 1⟩], [] ++
            [{ message := "Skipping " ++ "ground track" ++ " point for " ++ "NOAA 15" ++
                 " due to NaN position:"
               point := ⟨JSNum.nan, 0, 0⟩ }]) ∧
      appendHistoryPoint "ground track" "NOAA 15" [⟨0, 0, 1⟩] ⟨1, 2, 3⟩ []
        = (pushBounded [⟨0, 0, 1⟩] ⟨1, 2, 3⟩, []) :=
  ⟨(appendHistoryPoint_rejects_nan "ground track" "NOAA 15" [⟨0, 0, 1⟩] ⟨JSNum.nan, 0, 0⟩
      []).1 (Or.inl rfl),
    (appendHistoryPoint_rejects_nan "ground track" "NOAA 15" [⟨0, 0, 1⟩] ⟨1, 2, 3⟩ []).2
      (by simp [JSNum.ofNat_eq])⟩

/-- A failed position computation hides the object and changes nothing else. -/
theorem updateSatellite_of_none {Satrec : Type} (M : JSMath) (normalize : Vector3 → Vector3)
    (fr : Frame Satrec) (sat : Sat Satrec) (sh : Shared)
    (hpos : calculateSatellitePosition M fr.satellite sat.satrec fr.simulationTime = none) :
    updateSatellite M normalize fr sat sh = (sat.hidden, sh) := by
  unfold updateSatellite Sat.hidden
  cases hlib : fr.satellite with
  | none => rfl
  | some lib =>
    rw [hlib] at hpos
    simp only [hpos]

/-- The record written for an object does not depend on the shared state. -/
theorem updateSatellite_fst_shared {Satrec : Type} (M : JSMath)
    (normalize : Vector3 → Vector3) (fr : Frame Satrec) (sat : Sat Satrec)
    (sh sh2 : Shared) :
    (updateSatellite M normalize fr sat sh).1 = (updateSatellite M normalize fr sat sh2).1 := by
  unfold updateSatellite
  cases hlib : fr.satellite with
  | none => rfl
  | some lib =>
    simp only []
    cases hpos : calculateSatellitePosition M (some lib) sat.satrec fr.simulationTime with
    | none => rfl
    | some pd =>
      simp only [appendHistoryPoint]
      split <;> split <;> (try split) <;> rfl

theorem forEachSatellite_fst_shared {Satrec : Type} (M : JSMath)
    (normalize : Vector3 → Vector3) (fr : Frame Satrec) (sats : List (Sat Satrec))
    (sh sh2 : Shared) :
    (forEachSatellite M normalize fr sats sh).1
      = (forEachSatellite M normalize fr sats sh2).1 := by
  induction sats generalizing sh sh2 with
  | nil => rfl
  | cons sat rest ih =>
    simp only [forEachSatellite]
    rw [updateSatellite_fst_shared M normalize fr sat sh sh2,
      ih (updateSatellite M normalize fr sat sh).2 (updateSatellite M normalize fr sat sh2).2]

theorem forEachSatellite_append {Satrec : Type} (M : JSMath)
    (normalize : Vector3 → Vector3) (fr : Frame Satrec) (xs ys : List (Sat Satrec))
    (sh : Shared) :
    forEachSatellite M normalize fr (xs ++ ys) sh
      = ((forEachSatellite M normalize fr xs sh).1 ++
          (forEachSatellite M normalize fr ys (forEachSatellite M normalize fr xs sh).2).1,
        (forEachSatellite M normalize fr ys (forEachSatellite M normalize fr xs sh).2).2) := by
  induction xs generalizing sh with
  | nil => simp [forEachSatellite]
  | cons x rest ih =>
    show forEachSatellite M normalize fr (x :: (rest ++ ys)) sh = _
    simp only [forEachSatellite, ih, List.cons_append]

theorem forEachSatellite_length {Satrec : Type} (M : JSMath)
    (normalize : Vector3 → Vector3) (fr : Frame Satrec) (sats : List (Sat Satrec))
    (sh : Shared) : (forEachSatellite M normalize fr sats sh).1.length = sats.length := by
  induction sats generalizing sh with
  | nil => rfl
  | cons x rest ih => simp [forEachSatellite, ih]

theorem partial_failure (name : String) :
    calculateSatellitePosition sampleMath partialFrame.satellite (partialSat name false).satrec
      partialFrame.simulationTime = none := by
  simp [calculateSatellitePosition, partialFrame, partialLib, partialSat]

/-- In a tick that runs to its end, an object whose position computation returns null is
written back hidden, and the records written for the objects before it and after it, and
the shared state left by the tick, are those of the same tick over the catalogue without
that object. -/
theorem failing_object_isolated {Satrec : Type} (M : JSMath) (normalize : Vector3 → Vector3)
    (fr : Frame Satrec) (pre post : List (Sat Satrec)) (bad : Sat Satrec) (sh : Shared)
    (hfail : calculateSatellitePosition M fr.satellite bad.satrec fr.simulationTime = none) :
    bad.hidden.meshVisible = false ∧ bad.hidden.labelVisible = false ∧
      bad.hidden.orbitLineVisible = false ∧
      ∃ A B : List (Sat Satrec), A.length = pre.length ∧ B.length = post.length ∧
        (forEachSatellite M normalize fr (pre ++ bad :: post) sh).1 = A ++ bad.hidden :: B ∧
        (forEachSatellite M normalize fr (pre ++ post) sh).1 = A ++ B ∧
        (forEachSatellite M normalize fr (pre ++ bad :: post) sh).2
          = (forEachSatellite M normalize fr (pre ++ post) sh).2 := by
  refine ⟨rfl, rfl, rfl, (forEachSatellite M normalize fr pre sh).1,
    (forEachSatellite M normalize fr post (forEachSatellite M normalize fr pre sh).2).1,
    forEachSatellite_length _ _ _ _ _, forEachSatellite_length _ _ _ _ _, ?_, ?_, ?_⟩
  · rw [forEachSatellite_append]
    simp only [forEachSatellite, updateSatellite_of_none M normalize fr bad _ hfail]
  · rw [forEachSatellite_append]
  · rw [forEachSatellite_append, forEachSatellite_append]
    simp only [forEachSatellite, updateSatellite_of_none M normalize fr bad _ hfail]

/-- With the member `ecfToAziEle` present the look-angle call returns, with the value of
`getSatelliteLookAngles`. -/
theorem getSatelliteLookAnglesCompletion_of_exported {Satrec : Type} (M : JSMath)
    (satellite : Option (SatelliteJs Satrec)) (satrec : Satrec) (observer : Option Observer)
    (date : JSDate) :
    getSatelliteLookAnglesCompletion M satellite true satrec observer date
      = Completion.returned (getSatelliteLookAngles M satellite satrec observer date) := by
  unfold getSatelliteLookAnglesCompletion getSatelliteLookAngles
  split
  · split
    · dsimp only
      split
      · rfl
      · split <;> simp
    · rfl
  · rfl

/-- With the member `ecfToAziEle` missing the look-angle call returns null where
`getSatelliteLookAngles` does, and throws in every other case. -/
theorem getSatelliteLookAnglesCompletion_of_missing {Satrec : Type} (M : JSMath)
    (satellite : Option (SatelliteJs Satrec)) (satrec : Satrec) (observer : Option Observer)
    (date : JSDate) :
    getSatelliteLookAnglesCompletion M satellite false satrec observer date
      = if (getSatelliteLookAngles M satellite satrec observer date).isSome then
          Completion.thrown ecfToAziEleTypeError
        else Completion.returned none := by
  cases satellite with
  | none => simp [getSatelliteLookAnglesCompletion, getSatelliteLookAngles]
  | some lib =>
    cases observer with
    | none => simp [getSatelliteLookAnglesCompletion, getSatelliteLookAngles]
    | some obs =>
      obtain ⟨olat, olon⟩ := obs
      cases olat with
      | none => simp [getSatelliteLookAnglesCompletion, getSatelliteLookAngles]
      | some obsLat =>
        cases olon with
        | none => simp [getSatelliteLookAnglesCompletion, getSatelliteLookAngles]
        | some obsLon =>
          cases hp : (lib.propagate satrec date).position with
          | none => simp [getSatelliteLookAnglesCompletion, getSatelliteLookAngles, hp]
          | some e =>
            by_cases hne : (e.x.isNaN || e.y.isNaN || e.z.isNaN) = true
            · simp [getSatelliteLookAnglesCompletion, getSatelliteLookAngles, hp, hne]
            · simp [getSatelliteLookAnglesCompletion, getSatelliteLookAngles, hp, hne]

/-- With the member `ecfToAziEle` present the body of the loop runs to its end for every
object. -/
theorem updateSatelliteCompletion_of_exported {Satrec : Type} (M : JSMath)
    (normalize : Vector3 → Vector3) (fr : Frame Satrec) (sat : Sat Satrec) (sh : Shared) :
    updateSatelliteCompletion M normalize true fr sat sh
      = ((updateSatellite M normalize fr sat sh).1, (updateSatellite M normalize fr sat sh).2,
          none) := by
  unfold updateSatelliteCompletion
  simp only [getSatelliteLookAnglesCompletion_of_exported]
  split
  · split
    · split
      · split <;> rfl
      · rfl
    · rfl
  · rfl

/-- With the member `ecfToAziEle` present a tick runs to its end and is the loop
`forEachSatellite`. -/
theorem forEachSatelliteCompletion_of_exported {Satrec : Type} (M : JSMath)
    (normalize : Vector3 → Vector3) (fr : Frame Satrec) (sats : List (Sat Satrec))
    (sh : Shared) :
    forEachSatelliteCompletion M normalize true fr sats sh
      = { satellites := (forEachSatellite M normalize fr sats sh).1
          shared := (forEachSatellite M normalize fr sats sh).2
          thrown := none } := by
  induction sats generalizing sh with
  | nil => rfl
  | cons sat rest ih =>
    simp only [forEachSatelliteCompletion, updateSatelliteCompletion_of_exported, ih,
      forEachSatellite]

/-- The position sample of the selected object in `homeFrame`. -/
theorem home_position :
    calculateSatellitePosition sampleMath homeFrame.satellite
      (partialSat "ISS (ZARYA)" true).satrec homeFrame.simulationTime
      = some samplePositionData := by
  simp [calculateSatellitePosition, homeFrame, partialFrame, partialLib, partialSat, sampleLib,
    sampleLibWithHeight, eciToGeodetic, JSNum.isNaN, JSDate.getTime, samplePositionData,
    JSNum.ofNat_eq]

/-- C12, the code evaluated at a failing input: with a home location set and the library
object lacking the member `ecfToAziEle` (as in the version the component loads), a tick over
the selected object, an object whose position computation returns null and a third object
ends with a TypeError at the selected object.  The loop is left there: the failing object
is not marked not visible (its record is untouched, its visible flag still true) and the
third object is not processed. -/
theorem tick_aborts_at_selected_object :
    forEachSatelliteCompletion sampleMath sampleNormalize false homeFrame
        [partialSat "ISS (ZARYA)" true, partialSat "STARLINK-1001" false,
          partialSat "STARLINK-1002" true] ⟨none, []⟩
      = { satellites :=
            [{ partialSat "ISS (ZARYA)" true with meshPosition := samplePositionData.position },
              partialSat "STARLINK-1001" false, partialSat "STARLINK-1002" true]
          shared := ⟨none, []⟩
          thrown := some ecfToAziEleTypeError } ∧
      calculateSatellitePosition sampleMath homeFrame.satellite
        (partialSat "STARLINK-1001" false).satrec homeFrame.simulationTime = none ∧
      (partialSat "STARLINK-1001" false).meshVisible = true := by
  have hthrow : getSatelliteLookAnglesCompletion sampleMath homeFrame.satellite false
      (partialSat "ISS (ZARYA)" true).satrec homeFrame.userHomeLocation homeFrame.simulationTime
      = Completion.thrown ecfToAziEleTypeError := by
    simp [getSatelliteLookAnglesCompletion, homeFrame, partialFrame, partialLib, partialSat,
      sampleLib, sampleLibWithHeight, JSNum.isNaN, JSNum.ofNat_eq]
  have hsel : isSelected homeFrame.selectedSatellite (partialSat "ISS (ZARYA)" true).name
      = true := by
    simp [isSelected, homeFrame, partialFrame, partialSat]
  have hhome : homeFrame.userHomeLocation
      = some { latitude := some 10, longitude := some 20 } := rfl
  refine ⟨?_, ?_, rfl⟩
  · simp only [forEachSatelliteCompletion, updateSatelliteCompletion, home_position, hsel,
      hthrow]
    rw [hhome]
    simp
  · simp [calculateSatellitePosition, homeFrame, partialFrame, partialLib, partialSat]

/-- C13: when an object's position computation fails in a tick, its path points and its
ground-track points are exactly what they were before the tick, and the shared state is
untouched: no display sample is stored and nothing is logged for it. -/
theorem failed_computation_changes_no_history {Satrec : Type} (M : JSMath)
    (normalize : Vector3 → Vector3) (fr : Frame Satrec) (sat : Sat Satrec) (sh : Shared)
    (hfail : calculateSatellitePosition M fr.satellite sat.satrec fr.simulationTime = none) :
    (updateSatellite M normalize fr sat sh).1.pathPoints = sat.pathPoints ∧
      (updateSatellite M normalize fr sat sh).1.groundTrackPoints = sat.groundTrackPoints ∧
      (updateSatellite M normalize fr sat sh).2.displayData = sh.displayData ∧
      (updateSatellite M normalize fr sat sh).2 = sh := by
  rw [updateSatellite_of_none M normalize fr sat sh hfail]
  exact ⟨rfl, rfl, rfl, rfl⟩

/-- Witness of `failed_computation_changes_no_history`: the failing sample object keeps its
one path point. -/
theorem failed_computation_changes_no_history_witness :
    (updateSatellite sampleMath sampleNormalize partialFrame (partialSat "STARLINK-1001" false)
        ⟨none, []⟩).1.pathPoints = (partialSat "STARLINK-1001" false).pathPoints :=
  (failed_computation_changes_no_history sampleMath sampleNormalize partialFrame
    (partialSat "STARLINK-1001" false) ⟨none, []⟩ (partial_failure "STARLINK-1001")).1

/-! ## Look angles -/

/-- When the library call of `ecfToAziEle` returns, `getSatelliteLookAngles` returns null
exactly when the library is unavailable, the
observer is missing or has an undefined latitude or longitude, or the propagated inertial
position is missing or has a NaN component; a returned value is the azimuth, elevation and
range that the library computes from the observer at sea level and the rotated position,
passed on unchanged (no test is made on the elevation). -/
theorem getSatelliteLookAngles_null_iff {Satrec : Type} (M : JSMath)
    (satellite : Option (SatelliteJs Satrec)) (satrec : Satrec) (observer : Option Observer)
    (date : JSDate) :
    (getSatelliteLookAngles M satellite satrec observer date = none ↔
        satellite = none ∨ observer = none ∨
          (∃ obs, observer = some obs ∧ (obs.latitude = none ∨ obs.longitude = none)) ∨
          (∃ lib, satellite = some lib ∧
            ((lib.propagate satrec date).position = none ∨
              ∃ e, (lib.propagate satrec date).position = some e ∧
                (e.x.isNaN = true ∨ e.y.isNaN = true ∨ e.z.isNaN = true)))) ∧
      (∀ la, getSatelliteLookAngles M satellite satrec observer date = some la →
        ∃ lib obsLat obsLon e, satellite = some lib ∧
          observer = some { latitude := some obsLat, longitude := some obsLon } ∧
          (lib.propagate satrec date).position = some e ∧
          la = lib.ecfToAziEle
            (lib.geodeticToEcf
              { latitude := obsLat * M.PI / 180, longitude := obsLon * M.PI / 180,
                height := 0 })
            (lib.eciToEcf e (lib.gstime date))) := by
  cases satellite with
  | none => simp [getSatelliteLookAngles]
  | some lib =>
    cases observer with
    | none => simp [getSatelliteLookAngles]
    | some obs =>
      obtain ⟨olat, olon⟩ := obs
      cases olat with
      | none => simp [getSatelliteLookAngles]
      | some obsLat =>
        cases olon with
        | none => simp [getSatelliteLookAngles]
        | some obsLon =>
          cases hp : (lib.propagate satrec date).position with
          | none => simp [getSatelliteLookAngles, hp]
          | some e =>
            by_cases hne : (e.x.isNaN || e.y.isNaN || e.z.isNaN) = true
            · have hne2 := hne
              simp only [Bool.or_eq_true] at hne2
              simp [getSatelliteLookAngles, hp, hne]
              rcases hne2 with (h | h) | h
              · exact Or.inl h
              · exact Or.inr (Or.inl h)
              · exact Or.inr (Or.inr h)
            · have hne2 := hne
              simp only [Bool.or_eq_true, not_or, Bool.not_eq_true] at hne2
              simp [getSatelliteLookAngles, hp, hne2.1.1, hne2.1.2, hne2.2]
              exact ⟨obsLat, obsLon, ⟨rfl, rfl⟩, rfl⟩

/-- C14, the code evaluated at a failing input: the library is loaded, the observer has
latitude 10 and longitude 20 and the propagated position has no NaN component, so none of
the conditions for null holds; the library object has no member `ecfToAziEle` (as in the
version the component loads), and the call throws a TypeError instead of returning azimuth,
elevation and range. -/
theorem getSatelliteLookAngles_throws :
    getSatelliteLookAnglesCompletion sampleMath (some sampleLib) false ()
        (some { latitude := some 10, longitude := some 20 }) ⟨some 1000⟩
      = Completion.thrown ecfToAziEleTypeError ∧
      (sampleLib.propagate () ⟨some 1000⟩).position = some { x := 7000, y := 0, z := 0 } := by
  constructor
  · simp [getSatelliteLookAnglesCompletion, sampleLib, sampleLibWithHeight, JSNum.isNaN,
      JSNum.ofNat_eq]
  · rfl

/-! ## Geodetic to scene coordinates -/

theorem triangleWave_values :
    triangleWave 0 = 0 ∧ triangleWave 1 = 1 ∧ triangleWave 2 = 0 ∧ triangleWave 3 = -1 ∧
      triangleWave 4 = 0 := by
  have h1 : ⌊((1 : ℚ) / 4)⌋ = 0 := by rw [Int.floor_eq_iff]; norm_num
  have h2 : ⌊((1 : ℚ) / 2)⌋ = 0 := by rw [Int.floor_eq_iff]; norm_num
  have h3 : ⌊((3 : ℚ) / 4)⌋ = 0 := by rw [Int.floor_eq_iff]; norm_num
  have h5 : ⌊((5 : ℚ) / 4)⌋ = 1 := by rw [Int.floor_eq_iff]; norm_num
  refine ⟨?_, ?_, ?_, ?_, ?_⟩ <;> norm_num [triangleWave, h1, h2, h3, h5]

/-- C15, at the failing input: for a sample at latitude 0, longitude 90 and altitude 629
the scene position points along the negative z axis, (0, 0, -0.7), while the ground-track
point lies on the positive z axis, (0, 0, 0.6381): it is not a positive multiple of the
position, but its mirror image in the plane z = 0 rescaled. -/
theorem groundPoint_mirrors_position :
    (calculateSatellitePosition triangleMath (some (fixedPointLib 90 0 629)) ()
        ⟨some 1000⟩).map (fun pd => (pd.position, groundPoint triangleMath pd))
        = some (⟨JSNum.fin 0, JSNum.fin 0, JSNum.fin (-(7 / 10))⟩,
            ⟨JSNum.fin 0, JSNum.fin 0, JSNum.fin (6381 / 10000)⟩) ∧
      ¬ ∃ k : ℚ, 0 < k ∧ (6381 / 10000 : ℚ) = k * (-(7 / 10)) := by
  constructor
  · simp [calculateSatellitePosition, fixedPointLib, sampleLib, sampleLibWithHeight,
      eciToGeodetic, JSNum.isNaN, JSNum.ofNat_eq, groundPoint, geodeticToSpherical,
      triangleMath, JSNum.fin_add_fin, JSNum.fin_sub_fin, JSNum.fin_mul_fin,
      JSNum.fin_div_fin, JSNum.neg_fin]
    norm_num [triangleWave_values]
  · rintro ⟨k, hk, h⟩
    nlinarith

/-! ## Occlusion, the pause control and the home location -/

theorem JSNum.lt_fin_zero (q : ℚ) : JSNum.lt (JSNum.fin q) 0 = decide (q < 0) := by
  simp [JSNum.lt, JSNum.ofNat_eq]

/-- C18: with the object's category enabled, occlusion on and the night mask off, for every
non-zero camera vector c relative to the body centre: an object at -k * c with k > 0 is
classified not visible, and every object whose position relative to the body centre has a
positive dot product with c is classified visible. -/
theorem occlusion_classification {Satrec : Type} (normalize : Vector3 → Vector3)
    (fr : Frame Satrec) (type : String) (ex ey ez cx cy cz : ℚ)
    (hfilter : filterEnabled fr.filters type = true) (hocc : fr.hideBehindEarth = true)
    (hnight : fr.hideNightSide = false)
    (hearth : fr.earthPosition = ⟨JSNum.fin ex, JSNum.fin ey, JSNum.fin ez⟩)
    (hcam : fr.cameraPosition
      = ⟨JSNum.fin (ex + cx), JSNum.fin (ey + cy), JSNum.fin (ez + cz)⟩)
    (hc : ¬ (cx = 0 ∧ cy = 0 ∧ cz = 0)) :
    (∀ k : ℚ, 0 < k →
        satelliteVisibility normalize fr type
          ⟨JSNum.fin (ex + -k * cx), JSNum.fin (ey + -k * cy), JSNum.fin (ez + -k * cz)⟩
          = false) ∧
      (∀ px py pz : ℚ, 0 < (px - ex) * cx + (py - ey) * cy + (pz - ez) * cz →
        satelliteVisibility normalize fr type ⟨JSNum.fin px, JSNum.fin py, JSNum.fin pz⟩
          = true) := by
  have hdot : ∀ px py pz : ℚ,
      ((⟨JSNum.fin px, JSNum.fin py, JSNum.fin pz⟩ : Vector3).sub fr.earthPosition).dot
          (fr.cameraPosition.sub fr.earthPosition)
        = JSNum.fin ((px - ex) * cx + (py - ey) * cy + (pz - ez) * cz) := by
    intro px py pz
    simp only [hearth, hcam, Vector3.sub, Vector3.dot, JSNum.fin_sub_fin, JSNum.fin_mul_fin,
      JSNum.fin_add_fin]
    congr 1
    ring
  have hsq : 0 < cx ^ 2 + cy ^ 2 + cz ^ 2 := by
    by_contra hneg
    have h0 : cx ^ 2 + cy ^ 2 + cz ^ 2 = 0 :=
      le_antisymm (not_lt.mp hneg) (by positivity)
    have hx : cx = 0 := by nlinarith [sq_nonneg cx, sq_nonneg cy, sq_nonneg cz]
    have hy : cy = 0 := by nlinarith [sq_nonneg cx, sq_nonneg cy, sq_nonneg cz]
    have hz : cz = 0 := by nlinarith [sq_nonneg cx, sq_nonneg cy, sq_nonneg cz]
    exact hc ⟨hx, hy, hz⟩
  constructor
  · intro k hk
    rw [satelliteVisibility_eq, hdot, hfilter, hocc, hnight]
    have hlt : (ex + -k * cx - ex) * cx + (ey + -k * cy - ey) * cy + (ez + -k * cz - ez) * cz
        < 0 := by
      have : (ex + -k * cx - ex) * cx + (ey + -k * cy - ey) * cy + (ez + -k * cz - ez) * cz
          = -(k * (cx ^ 2 + cy ^ 2 + cz ^ 2)) := by ring
      rw [this]
      exact neg_lt_zero.mpr (mul_pos hk hsq)
    rw [JSNum.lt_fin_zero, decide_eq_true hlt]
    rfl
  · intro px py pz hpos
    rw [satelliteVisibility_eq, hdot, hfilter, hocc, hnight, JSNum.lt_fin_zero,
      decide_eq_false (not_lt.mpr (le_of_lt hpos))]
    rfl

/-- Witness of `occlusion_classification`: the sample frame, whose camera is at (0, 0, 2);
an object at (0, 0, -1) is hidden and an object at (0, 0, 0.7) is shown. -/
theorem occlusion_classification_witness :
    satelliteVisibility sampleNormalize sampleFrame "ISS"
        ⟨JSNum.fin (0 + -(1 / 2) * 0), JSNum.fin (0 + -(1 / 2) * 0),
          JSNum.fin (0 + -(1 / 2) * 2)⟩ = false ∧
      satelliteVisibility sampleNormalize sampleFrame "ISS"
        ⟨JSNum.fin 0, JSNum.fin 0, JSNum.fin (7 / 10)⟩ = true :=
  ⟨(occlusion_classification sampleNormalize sampleFrame "ISS" 0 0 0 0 0 2
      (by simp [filterEnabled, sampleFrame, initialFilters]) rfl rfl
      (by simp [sampleFrame, JSNum.ofNat_eq])
      (by simp [sampleFrame, JSNum.ofNat_eq])
      (by norm_num)).1 (1 / 2) (by norm_num),
    (occlusion_classification sampleNormalize sampleFrame "ISS" 0 0 0 0 0 2
      (by simp [filterEnabled, sampleFrame, initialFilters]) rfl rfl
      (by simp [sampleFrame, JSNum.ofNat_eq])
      (by simp [sampleFrame, JSNum.ofNat_eq])
      (by norm_num)).2 0 0 (7 / 10) (by norm_num)⟩

/-- C19: the pause control flips the clock state: from running it gives paused, from paused
it gives running, it leaves the rate multiplier alone, and applied twice it restores the
original state. -/
theorem pauseButtonOnClick_flips (c : TimeControls) (m : JSNum) :
    (pauseButtonOnClick { isPaused := false, timeMultiplier := m }).isPaused = true ∧
      (pauseButtonOnClick { isPaused := true, timeMultiplier := m }).isPaused = false ∧
      (pauseButtonOnClick c).isPaused = !c.isPaused ∧
      (pauseButtonOnClick c).timeMultiplier = c.timeMultiplier ∧
      pauseButtonOnClick (pauseButtonOnClick c) = c := by
  refine ⟨rfl, rfl, rfl, rfl, ?_⟩
  cases c with
  | mk paused mult => cases paused <;> rfl

/-- The acceptance test of `handleSetHomeLocation` holds exactly for a finite latitude in
[-90, 90] and a finite longitude in [-180, 180]. -/
theorem homeLocation_test_iff (lat lon : JSNum) :
    (!lat.isNaN && !lon.isNaN && JSNum.ge lat (JSNum.fin (-90)) && JSNum.le lat 90 &&
        JSNum.ge lon (JSNum.fin (-180)) && JSNum.le lon 180) = true ↔
      ∃ la lo : ℚ, lat = JSNum.fin la ∧ lon = JSNum.fin lo ∧ -90 ≤ la ∧ la ≤ 90 ∧
        -180 ≤ lo ∧ lo ≤ 180 := by
  cases lat <;> cases lon <;>
    simp [JSNum.isNaN, JSNum.ge, JSNum.le, JSNum.ofNat_eq, and_assoc]

/-- C20: `handleSetHomeLocation` stores the parsed latitude and longitude as the observer
location exactly when both inputs parse to numbers with -90 <= latitude <= 90 and
-180 <= longitude <= 180 (so neither is NaN or infinite), and then reports nothing; for
every other input the stored location is left unchanged and the error message is passed to
`console.error` and to `alert`. -/
theorem handleSetHomeLocation_spec (parseFloat : String → JSNum)
    (inputLatitude inputLongitude : String) (s : HomeLocationState) :
    ((∃ la lo : ℚ, parseFloat inputLatitude = JSNum.fin la ∧
          parseFloat inputLongitude = JSNum.fin lo ∧ -90 ≤ la ∧ la ≤ 90 ∧
          -180 ≤ lo ∧ lo ≤ 180) →
        handleSetHomeLocation parseFloat inputLatitude inputLongitude s
          = { s with
              userHomeLocation :=
                some { latitude := some (parseFloat inputLatitude)
                       longitude := some (parseFloat inputLongitude) } }) ∧
      ((¬ ∃ la lo : ℚ, parseFloat inputLatitude = JSNum.fin la ∧
          parseFloat inputLongitude = JSNum.fin lo ∧ -90 ≤ la ∧ la ≤ 90 ∧
          -180 ≤ lo ∧ lo ≤ 180) →
        handleSetHomeLocation parseFloat inputLatitude inputLongitude s
          = { s with
              consoleErrors := s.consoleErrors ++ [invalidHomeLocationMessage]
              alerts := s.alerts ++ [invalidHomeLocationMessage] }) := by
  constructor
  · intro h
    have ht := (homeLocation_test_iff _ _).mpr h
    unfold handleSetHomeLocation
    simp only [ht, if_true]
  · intro h
    have ht : ¬ ((!(parseFloat inputLatitude).isNaN && !(parseFloat inputLongitude).isNaN &&
        JSNum.ge (parseFloat inputLatitude) (JSNum.fin (-90)) &&
        JSNum.le (parseFloat inputLatitude) 90 &&
        JSNum.ge (parseFloat inputLongitude) (JSNum.fin (-180)) &&
        JSNum.le (parseFloat inputLongitude) 180) = true) :=
      fun hc => h ((homeLocation_test_iff _ _).mp hc)
    unfold handleSetHomeLocation
    simp [ht]

/-- Witness of `handleSetHomeLocation_spec`: the inputs "51.5" and "-0.12" are stored, the
inputs "91" and "-0.12" are rejected with the error message. -/
theorem handleSetHomeLocation_spec_witness :
    handleSetHomeLocation sampleParseFloat "51.5" "-0.12" ⟨none, [], []⟩
        = { (⟨none, [], []⟩ : HomeLocationState) with
            userHomeLocation :=
              some { latitude := some (sampleParseFloat "51.5")
                     longitude := some (sampleParseFloat "-0.12") } } ∧
      handleSetHomeLocation sampleParseFloat "91" "-0.12" ⟨none, [], []⟩
        = { (⟨none, [], []⟩ : HomeLocationState) with
            consoleErrors := [] ++ [invalidHomeLocationMessage]
            alerts := [] ++ [invalidHomeLocationMessage] } :=
  ⟨(handleSetHomeLocation_spec sampleParseFloat "51.5" "-0.12" ⟨none, [], []⟩).1
      ⟨103 / 2, -(3 / 25), by simp [sampleParseFloat], by simp [sampleParseFloat],
        by norm_num, by norm_num, by norm_num, by norm_num⟩,
    (handleSetHomeLocation_spec sampleParseFloat "91" "-0.12" ⟨none, [], []⟩).2
      (by
        rintro ⟨la, lo, h1, -, -, h2, -⟩
        have h91 : sampleParseFloat "91" = JSNum.fin 91 := by simp [sampleParseFloat]
        rw [h91] at h1
        have : la = 91 := (JSNum.fin.inj h1).symm
        rw [this] at h2
        norm_num at h2)⟩

/-! ## The discontinuity test in binary64 -/

theorem JSNum.fin_injective {a b : ℚ} (h : JSNum.fin a = JSNum.fin b) : a = b := by
  injection h

theorem JSNum.fin_add_540 (x : ℚ) : JSNum.fin x + 540 = JSNum.fin (x + 540) := by
  simp only [JSNum.ofNat_eq, JSNum.fin_add_fin, Nat.cast_ofNat]

theorem JSNum.fin_sub_180 (x : ℚ) : JSNum.fin x - 180 = JSNum.fin (x - 180) := by
  simp only [JSNum.ofNat_eq, JSNum.fin_sub_fin, Nat.cast_ofNat]

/-- The remainder by 360 of a value from 360 up to 720. -/
theorem JSNum.rem_360 {a : ℚ} (h1 : 360 ≤ a) (h2 : a < 720) :
    JSNum.fin a % (360 : JSNum) = JSNum.fin (a - 360) := by
  simp only [JSNum.ofNat_eq, Nat.cast_ofNat]
  rw [JSNum.fin_rem_fin a 360 (by norm_num)]
  have hq : (0 : ℚ) ≤ a / 360 := by positivity
  have hf : ⌊a / 360⌋ = 1 := by
    rw [Int.floor_eq_iff]
    constructor
    · rw [le_div_iff₀ (by norm_num)]
      norm_num
      exact h1
    · rw [div_lt_iff₀ (by norm_num)]
      norm_num
      linarith
  rw [JSNum.truncQ_of_nonneg hq, hf]
  norm_num

/-- Longitude normalisation in binary64 on longitudes from -180 up to 180 - 2 ^ -43: the
result is a whole multiple of 2 ^ -44 in the same range, at most 2 ^ -44 away from the
longitude. -/
theorem normalizeLongitude64_spec (x : ℚ) (h1 : -180 ≤ x) (h2 : x ≤ 180 - 1 / 2 ^ 43) :
    ∃ K : ℤ, normalizeLongitude64 (JSNum.fin x) = JSNum.fin ((K : ℚ) / 2 ^ 44) ∧
      |(K : ℚ) / 2 ^ 44 - x| ≤ 1 / 2 ^ 44 ∧ -180 ≤ (K : ℚ) / 2 ^ 44 ∧
      (K : ℚ) / 2 ^ 44 ≤ 180 - 1 / 2 ^ 43 := by
  have hy1 : (360 : ℚ) ≤ x + 540 := by linarith
  have hy2 : x + 540 ≤ 720 - 1 / 2 ^ 43 := by linarith
  obtain ⟨K, hK, herr⟩ := roundToDouble_near_longitude (x + 540) (by linarith)
    (by norm_num at hy2 ⊢; linarith)
  obtain ⟨r, hr, b1, b2⟩ := roundToDouble_bracket (x + 540) (-43) (by norm_num) (by norm_num)
    (by
      rw [abs_of_pos (by linarith)]
      norm_num at hy2 ⊢
      linarith)
  have hra : r = (K : ℚ) / 2 ^ 44 := JSNum.fin_injective (hr.symm.trans hK)
  have ha1 : (360 : ℚ) ≤ (K : ℚ) / 2 ^ 44 := by
    rw [← hra]
    have := b1 3166593487994880 (by norm_num [zpow_neg]; linarith)
    norm_num [zpow_neg] at this
    linarith
  have ha2 : (K : ℚ) / 2 ^ 44 ≤ 720 - 1 / 2 ^ 43 := by
    rw [← hra]
    have := b2 6333186975989759 (by norm_num [zpow_neg] at hy2 ⊢; linarith)
    norm_num [zpow_neg] at this ⊢
    linarith
  have hgrid : (K : ℚ) / 2 ^ 44 - 360 - 180
      = ((K - 9499780463984640 : ℤ) : ℚ) * (2 : ℚ) ^ (-44 : ℤ) := by
    push_cast
    norm_num [zpow_neg]
    ring
  have hex := roundToDouble_exact (K - 9499780463984640) (-44) (by norm_num) (by norm_num)
    (by
      rw [← hgrid, abs_lt]
      norm_num [zpow_neg] at ha2 ⊢
      constructor <;> linarith)
  rw [← hgrid] at hex
  refine ⟨K - 9499780463984640, ?_, ?_, ?_, ?_⟩
  · have e1 : ((K - 9499780463984640 : ℤ) : ℚ) / 2 ^ 44 = (K : ℚ) / 2 ^ 44 - 360 - 180 := by
      rw [hgrid]
      norm_num [zpow_neg]
      ring
    rw [e1]
    unfold normalizeLongitude64
    rw [JSNum.fin_add_540, JSNum.toDouble_fin, hK,
      JSNum.rem_360 ha1 (by norm_num at ha2 ⊢; linarith), JSNum.fin_sub_180,
      JSNum.toDouble_fin, hex]
  all_goals
    have e1 : ((K - 9499780463984640 : ℤ) : ℚ) / 2 ^ 44 = (K : ℚ) / 2 ^ 44 - 540 := by
      push_cast
      ring_nf
  · rw [e1]
    have : (K : ℚ) / 2 ^ 44 - 540 - x = (K : ℚ) / 2 ^ 44 - (x + 540) := by ring
    rw [this]
    exact herr
  · rw [e1]
    linarith
  · rw [e1]
    linarith

/-- Longitude normalisation in binary64 is exact on whole multiples of 2 ^ -43 from -180 up
to 180: such a longitude is returned as it is. -/
theorem normalizeLongitude64_exact (k : ℤ) (h1 : -180 ≤ (k : ℚ) / 2 ^ 43)
    (h2 : (k : ℚ) / 2 ^ 43 < 180) :
    normalizeLongitude64 (JSNum.fin ((k : ℚ) / 2 ^ 43)) = JSNum.fin ((k : ℚ) / 2 ^ 43) := by
  have hg1 : (k : ℚ) / 2 ^ 43 + 540
      = ((k + 4749890231992320 : ℤ) : ℚ) * (2 : ℚ) ^ (-43 : ℤ) := by
    push_cast
    norm_num [zpow_neg]
    ring
  have hex1 := roundToDouble_exact (k + 4749890231992320) (-43) (by norm_num) (by norm_num)
    (by
      rw [← hg1, abs_lt]
      norm_num
      constructor <;> linarith)
  rw [← hg1] at hex1
  have hg2 : (k : ℚ) / 2 ^ 43 + 540 - 360 - 180 = (k : ℚ) * (2 : ℚ) ^ (-43 : ℤ) := by
    norm_num [zpow_neg]
    ring
  have hex2 := roundToDouble_exact k (-43) (by norm_num) (by norm_num)
    (by
      rw [← hg2, abs_lt]
      norm_num
      constructor <;> linarith)
  rw [← hg2] at hex2
  unfold normalizeLongitude64
  rw [JSNum.fin_add_540, JSNum.toDouble_fin, hex1,
    JSNum.rem_360 (by linarith) (by linarith), JSNum.fin_sub_180, JSNum.toDouble_fin, hex2]
  congr 1
  ring

theorem JSNum.gt_abs_180 (d : ℚ) :
    JSNum.gt (JSNum.abs (JSNum.fin d)) 180 = decide (180 < |d|) := by
  simp [JSNum.gt, JSNum.lt, JSNum.abs, JSNum.ofNat_eq]

/-- The longitude-jump test in binary64 on two longitudes that normalise to multiples of
2 ^ -44: the difference is exact. -/
theorem longitudeJump64_of_normalized (a b : JSNum) (K L : ℤ)
    (ha : normalizeLongitude64 a = JSNum.fin ((K : ℚ) / 2 ^ 44))
    (hb : normalizeLongitude64 b = JSNum.fin ((L : ℚ) / 2 ^ 44))
    (hd : |(K : ℚ) / 2 ^ 44 - (L : ℚ) / 2 ^ 44| < 512) :
    longitudeJump64 a b = decide (180 < |(K : ℚ) / 2 ^ 44 - (L : ℚ) / 2 ^ 44|) := by
  have hg : (K : ℚ) / 2 ^ 44 - (L : ℚ) / 2 ^ 44 = ((K - L : ℤ) : ℚ) * (2 : ℚ) ^ (-44 : ℤ) := by
    push_cast
    norm_num [zpow_neg]
    ring
  have hex := roundToDouble_exact (K - L) (-44) (by norm_num) (by norm_num)
    (by
      rw [← hg]
      norm_num
      exact hd)
  rw [← hg] at hex
  unfold longitudeJump64
  dsimp only
  rw [ha, hb, JSNum.fin_sub_fin, JSNum.toDouble_fin, hex, JSNum.gt_abs_180]

/-- C21, amended: for any two longitudes prev and curr from -180 up to 180 - 2 ^ -43
degrees, the discontinuity test is true whenever |prev - curr| > 180 + 2 ^ -43 and false
whenever |prev - curr| ≤ 180 - 2 ^ -43; when both are whole multiples of 2 ^ -43 degrees it
is true exactly when |prev - curr| > 180.  (The normalisation rounds to binary64, which can
move a longitude by up to 2 ^ -44 degrees.) -/
theorem longitudeJump64_iff (prev curr : ℚ) (hp1 : -180 ≤ prev) (hp2 : prev ≤ 180 - 1 / 2 ^ 43)
    (hc1 : -180 ≤ curr) (hc2 : curr ≤ 180 - 1 / 2 ^ 43) :
    (180 + 1 / 2 ^ 43 < |prev - curr| →
        longitudeJump64 (JSNum.fin prev) (JSNum.fin curr) = true) ∧
      (|prev - curr| ≤ 180 - 1 / 2 ^ 43 →
        longitudeJump64 (JSNum.fin prev) (JSNum.fin curr) = false) ∧
      ((∃ k l : ℤ, prev = (k : ℚ) / 2 ^ 43 ∧ curr = (l : ℚ) / 2 ^ 43) →
        (longitudeJump64 (JSNum.fin prev) (JSNum.fin curr) = true ↔ 180 < |prev - curr|)) := by
  obtain ⟨K, hK, hKe, hK1, hK2⟩ := normalizeLongitude64_spec prev hp1 hp2
  obtain ⟨L, hL, hLe, hL1, hL2⟩ := normalizeLongitude64_spec curr hc1 hc2
  have hd : |(K : ℚ) / 2 ^ 44 - (L : ℚ) / 2 ^ 44| < 512 := by
    rw [abs_lt]
    norm_num at hK2 hL2 ⊢
    constructor <;> linarith
  have hjump := longitudeJump64_of_normalized _ _ K L hK hL hd
  have hKe2 := abs_le.mp hKe
  have hLe2 := abs_le.mp hLe
  have hclose : |((K : ℚ) / 2 ^ 44 - (L : ℚ) / 2 ^ 44) - (prev - curr)| ≤ 1 / 2 ^ 43 := by
    rw [abs_le]
    norm_num at hKe2 hLe2 ⊢
    constructor <;> linarith
  refine ⟨?_, ?_, ?_⟩
  · intro h
    rw [hjump, decide_eq_true_eq]
    have h3 := abs_sub_abs_le_abs_sub (prev - curr) ((K : ℚ) / 2 ^ 44 - (L : ℚ) / 2 ^ 44)
    rw [abs_sub_comm (prev - curr) ((K : ℚ) / 2 ^ 44 - (L : ℚ) / 2 ^ 44)] at h3
    linarith
  · intro h
    rw [hjump, decide_eq_false_iff_not, not_lt]
    have h3 := abs_sub_abs_le_abs_sub ((K : ℚ) / 2 ^ 44 - (L : ℚ) / 2 ^ 44) (prev - curr)
    linarith
  · rintro ⟨k, l, rfl, rfl⟩
    have hk := normalizeLongitude64_exact k hp1 (by norm_num at hp2 ⊢; linarith)
    have hl := normalizeLongitude64_exact l hc1 (by norm_num at hc2 ⊢; linarith)
    have eK : (k : ℚ) / 2 ^ 43 = ((2 * k : ℤ) : ℚ) / 2 ^ 44 := by
      push_cast
      ring
    have eL : (l : ℚ) / 2 ^ 43 = ((2 * l : ℤ) : ℚ) / 2 ^ 44 := by
      push_cast
      ring
    have hd2 : |((2 * k : ℤ) : ℚ) / 2 ^ 44 - ((2 * l : ℤ) : ℚ) / 2 ^ 44| < 512 := by
      rw [← eK, ← eL, abs_lt]
      norm_num at hp2 hc2 ⊢
      constructor <;> linarith
    have hj := longitudeJump64_of_normalized _ _ (2 * k) (2 * l) (hk.trans (congrArg _ eK))
      (hl.trans (congrArg _ eL)) hd2
    rw [hj, ← eK, ← eL, decide_eq_true_eq]

/-- Witness of `longitudeJump64_iff`: 179 and -179 degrees. -/
theorem longitudeJump64_iff_witness :
    longitudeJump64 (JSNum.fin 179) (JSNum.fin (-179)) = true :=
  (longitudeJump64_iff 179 (-179) (by norm_num) (by norm_num) (by norm_num)
    (by norm_num)).1 (by
      rw [abs_of_pos (by norm_num)]
      norm_num)

theorem normalizeLongitude64_180 :
    normalizeLongitude64 (JSNum.fin 180) = JSNum.fin (-180) := by
  have h720 : roundToDouble 720 = JSNum.fin 720 := by
    have := roundToDouble_intCast 720 (by rw [abs_of_pos (by norm_num)]; norm_num)
    simpa using this
  have hrem : JSNum.fin 720 % (360 : JSNum) = JSNum.fin 0 := by
    simp only [JSNum.ofNat_eq, Nat.cast_ofNat]
    rw [JSNum.fin_rem_fin 720 360 (by norm_num)]
    have hf : JSNum.truncQ ((720 : ℚ) / 360) = 2 := by
      have : (720 : ℚ) / 360 = ((2 : ℤ) : ℚ) := by norm_num
      rw [this, JSNum.truncQ_intCast]
    rw [hf]
    norm_num
  have h180 : roundToDouble (0 - 180) = JSNum.fin (-180) := by
    have := roundToDouble_intCast (-180) (by norm_num [abs_lt])
    simpa using this
  unfold normalizeLongitude64
  rw [JSNum.fin_add_540]
  norm_num only
  rw [JSNum.toDouble_fin, h720, hrem, JSNum.fin_sub_180, JSNum.toDouble_fin, h180]

theorem normalizeLongitude64_tiny :
    normalizeLongitude64 (JSNum.fin (1 / 2 ^ 50)) = JSNum.fin 0 := by
  have h540 : roundToDouble (1 / 2 ^ 50 + 540) = JSNum.fin 540 := by
    have h := @roundToDouble_of_binade (1 / 2 ^ 50 + 540) 9
      (by rw [abs_of_pos (by norm_num)]; norm_num)
      (by rw [abs_of_pos (by norm_num)]; norm_num) (by norm_num) (by norm_num)
    have hr : roundHalfEven ((1 / 2 ^ 50 + 540 : ℚ) / (2 : ℚ) ^ ((9 : ℤ) - 52))
        = 4749890231992320 := by
      apply roundHalfEven_of_lt_half
      · norm_num [zpow_neg]
      · norm_num [zpow_neg]
    rw [h, hr]
    norm_num [zpow_neg]
  have h0 : roundToDouble (540 - 360 - 180) = JSNum.fin 0 := by
    have := roundToDouble_intCast 0 (by norm_num)
    norm_num at this ⊢
    exact this
  unfold normalizeLongitude64
  rw [JSNum.fin_add_540, JSNum.toDouble_fin, h540, JSNum.rem_360 (by norm_num) (by norm_num),
    JSNum.fin_sub_180, JSNum.toDouble_fin, h0]

/-- C21, counterexample: for the previous longitude 180 and the current longitude -1, both
in [-180, 180], |prev - curr| is 181 > 180, yet the discontinuity test is false: 180 is
normalised to -180 first.  For the previous longitude 2 ^ -50 and the current longitude
-180, |prev - curr| exceeds 180, yet the test is false: 2 ^ -50 + 540 rounds to 540 in
binary64, so 2 ^ -50 is normalised to 0. -/
theorem longitudeJump64_misses :
    longitudeJump64 (JSNum.fin 180) (JSNum.fin (-1)) = false ∧
      (180 : ℚ) < |180 - (-1)| ∧
      longitudeJump64 (JSNum.fin (1 / 2 ^ 50)) (JSNum.fin (-180)) = false ∧
      (180 : ℚ) < |1 / 2 ^ 50 - (-180)| := by
  have hm1 : normalizeLongitude64 (JSNum.fin (-1)) = JSNum.fin (-1) := by
    have := normalizeLongitude64_exact (-8796093022208) (by norm_num) (by norm_num)
    norm_num at this
    exact this
  have hm180 : normalizeLongitude64 (JSNum.fin (-180)) = JSNum.fin (-180) := by
    have := normalizeLongitude64_exact (-1583296743997440) (by norm_num) (by norm_num)
    norm_num at this
    exact this
  have e180 : (-180 : ℚ) = ((-3166593487994880 : ℤ) : ℚ) / 2 ^ 44 := by norm_num
  have e1 : (-1 : ℚ) = ((-17592186044416 : ℤ) : ℚ) / 2 ^ 44 := by norm_num
  have e0 : (0 : ℚ) = ((0 : ℤ) : ℚ) / 2 ^ 44 := by norm_num
  have j1 := longitudeJump64_of_normalized (JSNum.fin 180) (JSNum.fin (-1))
    (-3166593487994880) (-17592186044416)
    (normalizeLongitude64_180.trans (congrArg _ e180)) (hm1.trans (congrArg _ e1))
    (by norm_num [abs_lt])
  have j2 := longitudeJump64_of_normalized (JSNum.fin (1 / 2 ^ 50)) (JSNum.fin (-180))
    0 (-3166593487994880)
    (normalizeLongitude64_tiny.trans (congrArg _ e0)) (hm180.trans (congrArg _ e180))
    (by norm_num [abs_lt])
  refine ⟨?_, ?_, ?_, ?_⟩
  · rw [j1, decide_eq_false_iff_not, not_lt]
    norm_num [abs_le]
  · norm_num
  · rw [j2, decide_eq_false_iff_not, not_lt]
    norm_num [abs_le]
  · rw [abs_of_pos (by norm_num)]
    norm_num

/-! ## Ground tracks of unselected objects, and ground stations -/

/-- C22: after a tick, every object whose position was computed and which is not the
selected object has an empty ground-track buffer. -/
theorem unselected_groundTrack_empty {Satrec : Type} (M : JSMath)
    (normalize : Vector3 → Vector3) (fr : Frame Satrec) (sat : Sat Satrec) (sh : Shared)
    (pd : PositionData)
    (hpos : calculateSatellitePosition M fr.satellite sat.satrec fr.simulationTime = some pd)
    (hsel : isSelected fr.selectedSatellite sat.name = false) :
    (updateSatellite M normalize fr sat sh).1.groundTrackPoints = [] := by
  obtain ⟨lib, hlib⟩ := satellite_isSome_of_position hpos
  rw [updateSatellite_groundTrackPoints M normalize fr sat sh lib pd hlib hpos, hsel]
  rfl

/-- Witness of `unselected_groundTrack_empty`: an object other than the selected one, with a
point on its ground track before the tick. -/
theorem unselected_groundTrack_empty_witness :
    (updateSatellite sampleMath sampleNormalize sampleFrame
      { sampleSatTracked with name := "NOAA 15" } ⟨none, []⟩).1.groundTrackPoints = [] :=
  unselected_groundTrack_empty sampleMath sampleNormalize sampleFrame
    { sampleSatTracked with name := "NOAA 15" } ⟨none, []⟩ samplePositionData sample_position
    (by simp [isSelected, sampleFrame])

/-- C23: in a tick a ground station is shown exactly when the GroundStations filter is
enabled and the dot product of the normalised centre-to-station vector and the normalised
centre-to-camera vector is strictly positive; its label is shown exactly when the station
is. -/
theorem groundStation_visible_iff {Satrec : Type} (normalize : Vector3 → Vector3)
    (fr : Frame Satrec) (station : GroundStation) :
    ((updateGroundStation normalize fr station).meshVisible = true ↔
        filterEnabled fr.filters "GroundStations" = true ∧
          JSNum.gt ((normalize (station.meshPosition.sub fr.earthPosition)).dot
            (normalize (fr.cameraPosition.sub fr.earthPosition))) 0 = true) ∧
      (updateGroundStation normalize fr station).labelVisible
        = (updateGroundStation normalize fr station).meshVisible ∧
      (∀ q : ℚ,
        (normalize (station.meshPosition.sub fr.earthPosition)).dot
            (normalize (fr.cameraPosition.sub fr.earthPosition)) = JSNum.fin q →
        ((updateGroundStation normalize fr station).meshVisible = true ↔
          filterEnabled fr.filters "GroundStations" = true ∧ 0 < q)) := by
  refine ⟨?_, rfl, ?_⟩
  · simp [updateGroundStation]
  · intro q hq
    simp [updateGroundStation, hq, JSNum.gt, JSNum.lt, JSNum.ofNat_eq]

/-- Witness of `groundStation_visible_iff`: a station at the pole facing the camera of the
sample frame. -/
theorem groundStation_visible_iff_witness :
    (updateGroundStation sampleNormalize sampleFrame
        ⟨"NASA Goldstone", ⟨0, 0, 1⟩, false, false⟩).meshVisible = true ↔
      filterEnabled sampleFrame.filters "GroundStations" = true ∧ (0 : ℚ) < 1 :=
  (groundStation_visible_iff sampleNormalize sampleFrame
    ⟨"NASA Goldstone", ⟨0, 0, 1⟩, false, false⟩).2.2 1
    (by
      simp [sampleNormalize, sampleFrame, Vector3.sub, Vector3.dot, JSNum.ofNat_eq, JSNum.abs,
        JSNum.fin_sub_fin, JSNum.fin_add_fin, JSNum.fin_mul_fin, JSNum.fin_div_fin])

/-! ## Truncation of the simulation time -/

theorem roundToDouble_near_second :
    roundToDouble (1762300000000 + 16383 / 16384) = JSNum.fin 1762300000001 := by
  have h := @roundToDouble_of_binade (1762300000000 + 16383 / 16384) 40
    (by rw [abs_of_pos (by norm_num)]; norm_num)
    (by rw [abs_of_pos (by norm_num)]; norm_num) (by norm_num) (by norm_num)
  have hr : roundHalfEven ((1762300000000 + 16383 / 16384 : ℚ) / (2 : ℚ) ^ ((40 : ℤ) - 52))
      = 7218380800004095 + 1 := by
    apply roundHalfEven_of_gt_half
    · norm_num [zpow_neg]
    · norm_num [zpow_neg]
  rw [h, hr]
  norm_num [zpow_neg]

theorem roundToDouble_fraction :
    roundToDouble (16383 / 16384) = JSNum.fin (16383 / 16384) := by
  have h := roundToDouble_exact 16383 (-14) (by norm_num) (by norm_num) (by
    rw [abs_of_pos (by positivity)]
    norm_num [zpow_neg])
  norm_num [zpow_neg] at h
  exact h

theorem roundToDouble_near_second_clip :
    timeClip (JSNum.fin 1762300000001) = some 1762300000001 := by
  have hr : ¬ ((8640000000000000 : ℚ) < |1762300000001|) := by
    rw [abs_of_pos (by norm_num)]
    norm_num
  have ht : JSNum.truncQ (1762300000001 : ℚ) = 1762300000001 := by
    have := JSNum.truncQ_intCast 1762300000001
    simpa using this
  simp only [timeClip, maxTimeValue, hr, ht]
  rfl

/-- C25, counterexample: from the time 1762300000000 ms, with a delta of 16383/16384 ms and
multiplier 1 (all exact in binary64), the sum rounds up to 1762300000001 in binary64, so the
stored time advances by a whole millisecond, which is more than d * multiplier. -/
theorem animateClock64_advance_exceeds :
    frameDelta64 ⟨0, ⟨some 1762300000000⟩⟩ ⟨JSNum.fin (16383 / 16384), false, 1⟩
        = JSNum.fin (16383 / 16384) ∧
      (animateClock64 ⟨0, ⟨some 1762300000000⟩⟩
        ⟨JSNum.fin (16383 / 16384), false, 1⟩).simulationTime.timeValue
        = some 1762300000001 ∧
      (16383 / 16384 : ℚ) * 1 < ((1762300000001 : ℤ) : ℚ) - ((1762300000000 : ℤ) : ℚ) := by
  refine ⟨?_, ?_, by norm_num⟩
  · simp only [frameDelta64, JSNum.ofNat_eq, JSNum.fin_sub_fin, JSNum.toDouble_fin,
      Nat.cast_zero, sub_zero, roundToDouble_fraction]
  · rw [← roundToDouble_near_second_clip]
    simp only [animateClock64, advanceSimulationTime64, newDate, JSDate.getTime,
      JSNum.ofNat_eq, JSNum.fin_sub_fin, JSNum.fin_mul_fin, JSNum.fin_add_fin,
      JSNum.toDouble_fin, Nat.cast_zero, Nat.cast_one, sub_zero, mul_one,
      roundToDouble_fraction, Int.cast_ofNat, roundToDouble_near_second]
    rfl

/-- C25, amended: when the clock is running, the wall-clock delta d and the multiplier m
are non-negative, the previous virtual time t is a time at or after the epoch and t + d * m
lies within the range of `Date`, the time stored by the tick is a whole number of
milliseconds, not before t, and the advance is ⌊d * m⌋ or ⌈d * m⌉: it falls short of d * m
by less than 1 ms or exceeds it by less than 1 ms (the sum is rounded to binary64 before
`new Date` drops the fraction). -/
theorem animateClock64_truncates (s : ClockState) (tk : ClockTick) (t : ℤ) (d m : ℚ)
    (hrun : tk.isPaused = false) (ht : s.simulationTime.timeValue = some t) (ht0 : 0 ≤ t)
    (hd : frameDelta64 s tk = JSNum.fin d) (hd0 : 0 ≤ d)
    (hm : tk.timeMultiplier = JSNum.fin m) (hm0 : 0 ≤ m)
    (hr : (t : ℚ) + d * m ≤ maxTimeValue) :
    ∃ t2 : ℤ, (animateClock64 s tk).simulationTime.timeValue = some t2 ∧
      (animateClock64 s tk).simulationTime.getTime = JSNum.fin t2 ∧
      t ≤ t2 ∧ t + ⌊d * m⌋ ≤ t2 ∧ t2 ≤ t + ⌈d * m⌉ ∧
      d * m - ((t2 : ℚ) - t) < 1 ∧ ((t2 : ℚ) - t) - d * m < 1 := by
  have hdm : 0 ≤ d * m := mul_nonneg hd0 hm0
  have ht0q : (0 : ℚ) ≤ (t : ℚ) := by exact_mod_cast ht0
  have hsum : (0 : ℚ) ≤ (t : ℚ) + d * m := by linarith
  have habs : |(t : ℚ) + d * m| ≤ maxTimeValue := by
    rw [abs_of_nonneg hsum]
    exact hr
  have hprod : |d * m| < 9007199254740992 := by
    rw [abs_of_nonneg hdm]
    have : (t : ℚ) + d * m ≤ 8640000000000000 := by simpa [maxTimeValue] using hr
    linarith
  have hd2 : JSNum.toDouble (tk.timestamp - s.lastTimestamp) = JSNum.fin d := hd
  obtain ⟨t2, h2, hlo, hhi⟩ := advanceSimulationTime64_bracket d m ht hprod habs
  have key : (animateClock64 s tk).simulationTime.timeValue = some t2 := by
    simp only [animateClock64, hrun, hd2, hm]
    exact h2
  have hloq : ((t + ⌊d * m⌋ : ℤ) : ℚ) ≤ (t2 : ℚ) := by exact_mod_cast hlo
  have hhiq : (t2 : ℚ) ≤ ((t + ⌈d * m⌉ : ℤ) : ℚ) := by exact_mod_cast hhi
  push_cast at hloq hhiq
  have hfl : 0 ≤ ⌊d * m⌋ := Int.floor_nonneg.mpr hdm
  refine ⟨t2, key, JSDate.getTime_some key, by omega, hlo, hhi, ?_, ?_⟩
  · linarith [Int.lt_floor_add_one (d * m)]
  · linarith [Int.ceil_lt_add_one (d * m)]

/-- Witness of `animateClock64_truncates`: from time 1000 ms, a delta of 16.5 ms at
multiplier 1. -/
theorem animateClock64_truncates_witness :
    ∃ t2 : ℤ,
      (animateClock64 ⟨0, ⟨some 1000⟩⟩ ⟨JSNum.fin (33 / 2), false, 1⟩).simulationTime.timeValue
        = some t2 ∧
      (animateClock64 ⟨0, ⟨some 1000⟩⟩ ⟨JSNum.fin (33 / 2), false, 1⟩).simulationTime.getTime
        = JSNum.fin t2 ∧
      1000 ≤ t2 ∧ 1000 + ⌊(33 / 2 : ℚ) * 1⌋ ≤ t2 ∧ t2 ≤ 1000 + ⌈(33 / 2 : ℚ) * 1⌉ ∧
      33 / 2 * 1 - ((t2 : ℚ) - (1000 : ℤ)) < 1 ∧ ((t2 : ℚ) - (1000 : ℤ)) - 33 / 2 * 1 < 1 :=
  animateClock64_truncates ⟨0, ⟨some 1000⟩⟩ ⟨JSNum.fin (33 / 2), false, 1⟩ 1000 (33 / 2) 1
    rfl rfl (by norm_num)
    (by
      have h := roundToDouble_exact 33 (-1) (by norm_num) (by norm_num) (by
        rw [abs_of_pos (by positivity)]
        norm_num [zpow_neg])
      norm_num [zpow_neg] at h
      simp only [frameDelta64, JSNum.ofNat_eq, JSNum.fin_sub_fin, JSNum.toDouble_fin,
        Nat.cast_zero, sub_zero]
      exact h)
    (by norm_num)
    (by simp only [JSNum.ofNat_eq]; norm_num) (by norm_num) (by norm_num [maxTimeValue])

/-! ## The built-in catalogue and the filter map -/

/-- C26, at the failing input: only 10 of the 61 catalogue entries have two lines of 69
characters.  The entry STARLINK-1001 has a first line of 70 and a second line of 76
characters, NOAA 15 a second line of 67 and GOES 16 a second line of 65 characters; the
first Starlink entry and the GPS entries are 69 characters wide. -/
theorem tle_lines_width :
    (TLE_DATA.filter TleEntry.wellFormed).length = 10 ∧
      (TLE_DATA.map (fun e => (e.name, e.line1.length, e.line2.length))).take 9
        = [("ISS (ZARYA)", 69, 69), ("HUBBLE SPACE TELESCOPE", 69, 69),
            ("GPS (NAVSTAR 75)", 69, 69), ("GPS (NAVSTAR 76)", 69, 69),
            ("GPS (NAVSTAR 77)", 69, 69), ("GPS (NAVSTAR 78)", 69, 69),
            ("GPS (NAVSTAR 79)", 69, 69), ("STARLINK-1000", 69, 69),
            ("STARLINK-1001", 70, 76)] ∧
      (TLE_DATA.map (fun e => (e.name, e.line1.length, e.line2.length))).drop 57
        = [("NOAA 15", 69, 67), ("GOES 16", 69, 65), ("TERRA (EOS AM-1)", 69, 69),
            ("AQUA (EOS PM-1)", 69, 69)] ∧
      (TLE_DATA.all TleEntry.wellFormed) = false := by
  decide

/-- The objects matched by a name are counted by the occurrences of the name. -/
theorem filter_name_length (l : List TleEntry) (n : String) :
    (l.filter (fun e => e.name == n)).length = (l.map (fun e => e.name)).count n := by
  induction l with
  | nil => rfl
  | cons a rest ih =>
    by_cases h : a.name = n
    · simp [List.filter, h, ih]
    · have h2 : (a.name == n) = false := by simpa using h
      simp [List.filter, h2, ih, List.count_cons, h]

theorem tle_names_nodup : (TLE_DATA.map (fun e => e.name)).Nodup := by
  decide

/-- C27: the built-in catalogue has 61 entries whose names are pairwise distinct, so the
test that matches the selected object by name holds for at most one catalogue entry,
whatever the selection is. -/
theorem tle_names_distinct (selectedSatellite : Option String) :
    TLE_DATA.length = 61 ∧ (TLE_DATA.map (fun e => e.name)).Nodup ∧
      (TLE_DATA.filter (fun e => isSelected selectedSatellite e.name)).length ≤ 1 := by
  refine ⟨by decide, tle_names_nodup, ?_⟩
  cases selectedSatellite with
  | none => simp [isSelected]
  | some n =>
    simp only [isSelected]
    rw [filter_name_length]
    exact List.nodup_iff_count_le_one.mp tle_names_nodup n

/-- C28: every category tag occurring in the built-in catalogue is a key of the initial
filter map with value true, so with the initial filters the type-filter step hides no
catalogue object. -/
theorem tle_types_enabled :
    (TLE_DATA.all (fun e => decide (initialFilters e.type = some true))) = true ∧
      (TLE_DATA.all (fun e => filterEnabled initialFilters e.type)) = true ∧
      (TLE_DATA.map (fun e => e.type)).dedup
        = ["ISS", "Hubble", "GPS", "Starlink", "Weather", "EarthObservation"] := by
  decide

/-- C29: `handleFilterChange(type)` negates the filter entry of that type and leaves every
other entry of the filter map unchanged; applied twice with the same type it restores the
entry of every type that was present in the original map. -/
theorem handleFilterChange_toggles (type : String) (filters : String → Option Bool) :
    handleFilterChange type filters type = some (!filterEnabled filters type) ∧
      filterEnabled (handleFilterChange type filters) type = !filterEnabled filters type ∧
      (∀ key, key ≠ type → handleFilterChange type filters key = filters key) ∧
      (∀ key, (filters key).isSome = true →
        handleFilterChange type (handleFilterChange type filters) key = filters key) := by
  refine ⟨by simp [handleFilterChange], by simp [handleFilterChange, filterEnabled], ?_, ?_⟩
  · intro key hne
    simp [handleFilterChange, hne]
  · intro key hsome
    by_cases hk : key = type
    · subst hk
      cases hf : filters key with
      | none => simp [hf] at hsome
      | some b => simp [handleFilterChange, filterEnabled, hf]
    · simp [handleFilterChange, hk]

/-- Witness of `handleFilterChange_toggles`: toggling GPS in the initial filter map leaves
the Starlink entry alone, and toggling it twice restores the GPS entry. -/
theorem handleFilterChange_toggles_witness :
    handleFilterChange "GPS" initialFilters "Starlink" = initialFilters "Starlink" ∧
      handleFilterChange "GPS" (handleFilterChange "GPS" initialFilters) "GPS"
        = initialFilters "GPS" :=
  ⟨(handleFilterChange_toggles "GPS" initialFilters).2.2.1 "Starlink" (by decide),
    (handleFilterChange_toggles "GPS" initialFilters).2.2.2 "GPS" (by decide)⟩

end AdiSat
